import Mathlib

/-!
Verification of the fb-cpp typed message marshalling engine.

This file gives a shallow embedding, in Lean, of the parts of the fb-cpp
library that the verified properties talk about:

  - the SQL wire/adjusted type model and the per-field `Descriptor`
    (Statement.cpp, Statement.h);
  - the layout deriver (the `processMetadata` lambda in the `Statement`
    constructor, Statement.cpp lines 82-165);
  - the statement-kind rejection in the `Statement` constructor
    (Statement.cpp lines 56-80);
  - the row-buffer accessors: `setNull`, `isNull`, the typed getters, the
    `setString` integer and string cases, and the bounds-checked descriptor
    lookups (Statement.h);
  - generic record/tuple binding (`get<Aggregate>` / `getStructField`) and
    variant binding (`get<VariantLike>` / `getVariantValue` /
    `tryVariantAlternatives`) (Statement.h);
  - the `Transaction` state machine (Transaction.cpp / Transaction.h).

Machine integers are modelled as `Int` with explicit width checks; the row
buffer is a list of bytes (`Nat` values below 256, little endian).  Engine
supplied conversion utilities (decimal-float, floating point and calendar
codecs) are external collaborators of the library and enter the model as
explicit function parameters (`ConvEnv`); the library code that is being
verified never looks inside them.
-/

namespace FbCpp

/-- SQL types as reported on the wire and after adjustment.  The C++ code has
two enums, `DescriptorOriginalType` and `DescriptorAdjustedType`, both obtained
by a `static_cast` from the same engine type code, so a single Lean enum
faithfully models both; the constructor `STRING` plays the role of the wire
code `SQL_VARYING` and of the adjusted type `STRING`. -/
inductive SqlType where
  | TEXT
  | STRING
  | TIME_TZ_EX
  | TIMESTAMP_TZ_EX
  | BOOLEAN
  | INT16
  | INT32
  | INT64
  | INT128
  | FLOAT
  | DOUBLE
  | DECFLOAT16
  | DECFLOAT34
  | DATE
  | TIME
  | TIMESTAMP
  | TIME_TZ
  | TIMESTAMP_TZ
  | BLOB
  deriving DecidableEq, Repr

/-- Per-field layout and type metadata, mirroring `Descriptor` as initialised
by the `Statement` constructor (Statement.cpp lines 97-108). -/
structure Descriptor where
  originalType : SqlType
  adjustedType : SqlType
  scale : Int
  length : Nat
  offset : Nat
  nullOffset : Nat
  isNullable : Bool
  fieldName : String
  aliasName : String
  relationName : String
  deriving DecidableEq, Repr

/-- Errors raised by the marshalling engine.  `fbCpp` models `FbCppException`
(shape/usage errors), `database` models `DatabaseException` (engine style
errors carrying isc status codes), `outOfRange` models `std::out_of_range`,
and `conversion` models the conversion errors raised through
`NumericConverter` (`throwConversionErrorFromString`, numeric overflow). -/
inductive FbError where
  | fbCpp (msg : String)
  | database (codes : List Int)
  | outOfRange
  | conversion (msg : String)
  | invalidType (actualType : String) (descriptorType : SqlType)
  deriving DecidableEq, Repr

/-- The Firebird status code pair thrown by `setString` on string truncation
(Statement.h lines 1161-1167): `isc_arith_except`, `isc_string_truncation`. -/
def STATUS_STRING_TRUNCATION : List Int := [335544321, 335544914]

/-- Value written to a 2-byte null indicator slot to mark a field null. -/
def FB_TRUE : Nat := 1

/-- Value written to a 2-byte null indicator slot to mark a field not null. -/
def FB_FALSE : Nat := 0

/-- A row buffer: a packed sequence of bytes. -/
def Buffer := List Nat

instance : DecidableEq Buffer := inferInstanceAs (DecidableEq (List Nat))

instance : Repr Buffer := inferInstanceAs (Repr (List Nat))

/-- Reads a single byte; bytes outside the buffer read as zero. -/
def Buffer.byte (buf : Buffer) (i : Nat) : Nat := List.getD buf i 0

/-- Writes a single byte in place (no effect outside the buffer). -/
def Buffer.setByte (buf : Buffer) (i : Nat) (v : Nat) : Buffer :=
  List.set buf i (v % 256)

/-- Reads a little-endian 2-byte unsigned quantity at a byte offset. -/
def Buffer.read16 (buf : Buffer) (off : Nat) : Nat :=
  buf.byte off + 256 * buf.byte (off + 1)

/-- Writes a little-endian 2-byte quantity at a byte offset. -/
def Buffer.write16 (buf : Buffer) (off : Nat) (v : Nat) : Buffer :=
  (buf.setByte off (v % 256)).setByte (off + 1) (v / 256)

/-- Writes a list of bytes starting at a byte offset. -/
def Buffer.writeBytes (buf : Buffer) (off : Nat) : List Nat → Buffer
  | [] => buf
  | b :: rest => (buf.setByte off b).writeBytes (off + 1) rest

/-- Reads a list of `n` bytes starting at a byte offset. -/
def Buffer.readBytes (buf : Buffer) (off n : Nat) : List Nat :=
  (List.range n).map (fun i => buf.byte (off + i))

/-- Resizes the buffer, keeping a prefix and zero-filling any extension,
modelling `std::vector<std::byte>::resize`. -/
def Buffer.resize (buf : Buffer) (n : Nat) : Buffer :=
  buf.take n ++ List.replicate (n - buf.length) 0

/-- A buffer of `n` zero bytes, the state of a freshly resized message. -/
def Buffer.zeros (n : Nat) : Buffer := List.replicate n 0

/-- Length of a buffer. -/
def Buffer.size (buf : Buffer) : Nat := List.length buf

/-- Folds a run of null-flag writes over a list of byte offsets. -/
def writeOnes (offs : List Nat) (buf : Buffer) : Buffer :=
  offs.foldl (fun b o => b.write16 o FB_TRUE) buf

/-! ## Layout deriver (the processMetadata lambda, Statement.cpp lines 82-165) -/
/-- Engine-reported metadata for one field: what `IMessageMetadata` exposes
per index (type, scale, length, nullability, names, offset, null offset). -/
structure MetaField where
  type : SqlType
  scale : Int
  length : Nat
  isNullable : Bool
  fieldName : String
  aliasName : String
  relationName : String
  offset : Nat
  nullOffset : Nat
  deriving DecidableEq, Repr

/-- Engine-reported metadata for one message: the per-field list plus the
total message length (`IMessageMetadata::getMessageLength`). -/
structure MessageMetadata where
  fields : List MetaField
  messageLength : Nat
  deriving DecidableEq, Repr

/-- The shape-rebuild request a wire type triggers in the constructor switch
(Statement.cpp lines 110-138): fixed-length text is rebuilt as SQL_VARYING
(adjusted STRING) and the extended timezone encodings are rebuilt as the
canonical timezone types. -/
def rebuildRequest : SqlType → Option SqlType
  | .TEXT => some .STRING
  | .TIME_TZ_EX => some .TIME_TZ
  | .TIMESTAMP_TZ_EX => some .TIMESTAMP_TZ
  | _ => none

/-- The adjusted type a wire type normalizes to: the requested rebuild type
when one exists, otherwise the wire type itself (the default assignment at
Statement.cpp line 99). -/
def normalizeType (t : SqlType) : SqlType := (rebuildRequest t).getD t

/-- The descriptor a field has while its offsets are still unassigned:
original type copied from the wire, adjusted type normalized, offsets zero
(Statement.cpp lines 97-108 with the switch at 110-138). -/
def preDescriptor (f : MetaField) : Descriptor :=
  { originalType := f.type
    adjustedType := normalizeType f.type
    scale := f.scale
    length := f.length
    offset := 0
    nullOffset := 0
    isNullable := f.isNullable
    fieldName := f.fieldName
    aliasName := f.aliasName
    relationName := f.relationName }

/-- A descriptor with the offsets filled in from the field metadata. -/
def fullDescriptor (f : MetaField) : Descriptor :=
  { preDescriptor f with offset := f.offset, nullOffset := f.nullOffset }

/-- One iteration of the constructor loop (Statement.cpp lines 95-149),
carried over the remaining indexed fields.  `reqs` collects the
`builder->setType` calls made so far; the builder exists exactly when `reqs`
is nonempty, so offsets are read and the null flag pre-set inline exactly
while `reqs` stays empty. -/
def processLoop : List (Nat × MetaField) → List Descriptor →
    List (Nat × SqlType) → Buffer →
    List Descriptor × List (Nat × SqlType) × Buffer
  | [], descs, reqs, buf => (descs, reqs, buf)
  | (i, f) :: rest, descs, reqs, buf =>
    let step : Descriptor × List (Nat × SqlType) :=
      match rebuildRequest f.type with
      | some t2 => ({ preDescriptor f with adjustedType := t2 }, reqs ++ [(i, t2)])
      | none => (preDescriptor f, reqs)
    if step.2.isEmpty then
      processLoop rest
        (descs ++ [{ step.1 with offset := f.offset, nullOffset := f.nullOffset }])
        step.2 (buf.write16 f.nullOffset FB_TRUE)
    else
      processLoop rest (descs ++ [step.1]) step.2 buf

/-- The rebuild requests a metadata set gives rise to over the whole loop. -/
def requestsOf (md : MessageMetadata) : List (Nat × SqlType) :=
  (md.fields.enumFrom 0).filterMap
    (fun p => (rebuildRequest p.2.type).map (fun t => (p.1, t)))

/-- The full layout derivation (the processMetadata lambda, Statement.cpp
lines 82-165): run the per-field loop; if any rebuild was requested, fetch
the revised metadata from the engine (`rebuilt`, modelling
`builder->getMetadata`), resize the message and recompute every offset and
null flag from it; otherwise keep the inline results.  Returns the
descriptors, the message buffer and the metadata the offsets came from.
The revised metadata is assumed to carry the same field count (the C++ loop
indexes it with the original count). -/
def processMetadata (md : MessageMetadata)
    (rebuilt : List (Nat × SqlType) → MessageMetadata) :
    List Descriptor × Buffer × MessageMetadata :=
  let r := processLoop (md.fields.enumFrom 0) [] [] (Buffer.zeros md.messageLength)
  let descs := r.1
  let reqs := r.2.1
  let buf := r.2.2
  if reqs.isEmpty then (descs, buf, md)
  else
    let md2 := rebuilt reqs
    let buf2 := buf.resize md2.messageLength
    let descs2 := (descs.zip md2.fields).map
      (fun p => { p.1 with offset := p.2.offset, nullOffset := p.2.nullOffset })
    let buf3 := md2.fields.foldl (fun b f => b.write16 f.nullOffset FB_TRUE) buf2
    (descs2, buf3, md2)

/-- The metadata whose offsets the derived descriptors use: the revised one
when any field requested a rebuild, the original one otherwise. -/
def layoutSource (md : MessageMetadata)
    (rebuilt : List (Nat × SqlType) → MessageMetadata) : MessageMetadata :=
  if requestsOf md = [] then md else rebuilt (requestsOf md)

/-- Well-formedness of a metadata set for null-flag purposes: every 2-byte
null slot lies inside the message and the slots of two fields are equal or
disjoint (the spec invariant that offsets never overlap across fields). -/
def nullSlotsWellFormed (md : MessageMetadata) : Prop :=
  (∀ f ∈ md.fields, f.nullOffset + 1 < md.messageLength) ∧
  ∀ f ∈ md.fields, ∀ g ∈ md.fields,
    f.nullOffset = g.nullOffset ∨ f.nullOffset + 1 < g.nullOffset ∨
      g.nullOffset + 1 < f.nullOffset

/-- A descriptor with its offsets forgotten, for stating which parts of the
loop result do not depend on the rebuild branch taken. -/
def eraseOffsets (d : Descriptor) : Descriptor := { d with offset := 0, nullOffset := 0 }

instance (md : MessageMetadata) : Decidable (nullSlotsWellFormed md) := by
  unfold nullSlotsWellFormed
  infer_instance

/-! ## Statement kind rejection (Statement.cpp lines 56-80, claim C6) -/
/-- Statement type classification reported by the engine at prepare time
(`StatementType`, Statement.h lines 123-181). -/
inductive StatementType where
  | SELECT
  | INSERT
  | UPDATE
  | DELETE
  | DDL
  | GET_SEGMENT
  | PUT_SEGMENT
  | EXEC_PROCEDURE
  | START_TRANSACTION
  | COMMIT
  | ROLLBACK
  | SELECT_FOR_UPDATE
  | SET_GENERATOR
  | SAVEPOINT
  deriving DecidableEq, Repr

/-- The type-rejection switch executed by the `Statement` constructor right
after the engine classifies the prepared text (Statement.cpp lines 58-80).
Returns `ok` exactly when construction continues past the switch. -/
def checkStatementType : StatementType → Except FbError Unit
  | .START_TRANSACTION =>
      .error (.fbCpp
        "Cannot use SET TRANSACTION command with Statement class. Use Transaction class")
  | .COMMIT =>
      .error (.fbCpp
        "Cannot use COMMIT command with Statement class. Use the commit method from the Transaction class")
  | .ROLLBACK =>
      .error (.fbCpp
        "Cannot use ROLLBACK command with Statement class. Use the rollback method from the Transaction class")
  | .GET_SEGMENT => .error (.fbCpp "Unsupported statement type: BLOB segment operations")
  | .PUT_SEGMENT => .error (.fbCpp "Unsupported statement type: BLOB segment operations")
  | _ => .ok ()

/-- Predicate: the error is an `FbCppException` usage error, not a
`DatabaseException` engine error. -/
def FbError.isUsageError : FbError → Prop
  | .fbCpp _ => True
  | _ => False

instance (e : FbError) : Decidable e.isUsageError := by
  cases e <;> simp [FbError.isUsageError] <;> infer_instance

/-! ## Transaction state machine (Transaction.cpp, Transaction.h, claims C7 and C8) -/
/-- Transaction state for tracking the two-phase commit lifecycle
(`TransactionState`, Transaction.h lines 310-331). -/
inductive TransactionState where
  | ACTIVE
  | PREPARED
  | COMMITTED
  | ROLLED_BACK
  deriving DecidableEq, Repr

/-- The `Transaction` fields relevant to the lifecycle: whether the engine
handle is live, and the tracked state.  A fresh transaction has a live handle
and state `ACTIVE` (Transaction.h lines 530-534). -/
structure Transaction where
  handleValid : Bool
  state : TransactionState
  deriving DecidableEq, Repr

namespace Transaction

/-- Mirror of `Transaction::isValid`. -/
def isValid (t : Transaction) : Bool := t.handleValid

/-- Mirror of `Transaction::rollback` (part_000 lines 677-688).  The debug
assertions on entry (`isValid`, state `ACTIVE` or `PREPARED`) are modelled as
preconditions: violating them is an error.  On success the engine handle is
released and the state becomes `ROLLED_BACK`. -/
def rollback (t : Transaction) : Except FbError Transaction :=
  if ¬ t.isValid then .error (.fbCpp "assert(isValid())")
  else if t.state = .ACTIVE ∨ t.state = .PREPARED then
    .ok { handleValid := false, state := .ROLLED_BACK }
  else .error (.fbCpp "assert(state == ACTIVE || state == PREPARED)")

/-- Mirror of `Transaction::commit` (part_000 lines 690-701). -/
def commit (t : Transaction) : Except FbError Transaction :=
  if ¬ t.isValid then .error (.fbCpp "assert(isValid())")
  else if t.state = .ACTIVE ∨ t.state = .PREPARED then
    .ok { handleValid := false, state := .COMMITTED }
  else .error (.fbCpp "assert(state == ACTIVE || state == PREPARED)")

/-- Mirror of `Transaction::commitRetaining` (part_000 lines 703-712): legal
only while `ACTIVE`; neither the handle nor the state field is touched. -/
def commitRetaining (t : Transaction) : Except FbError Transaction :=
  if ¬ t.isValid then .error (.fbCpp "assert(isValid())")
  else if t.state = .ACTIVE then .ok t
  else .error (.fbCpp "assert(state == ACTIVE)")

/-- Mirror of `Transaction::rollbackRetaining` (part_000 lines 714-723). -/
def rollbackRetaining (t : Transaction) : Except FbError Transaction :=
  if ¬ t.isValid then .error (.fbCpp "assert(isValid())")
  else if t.state = .ACTIVE then .ok t
  else .error (.fbCpp "assert(state == ACTIVE)")

/-- Mirror of `Transaction::prepare` (part_000 lines 725-740). -/
def prepare (t : Transaction) : Except FbError Transaction :=
  if ¬ t.isValid then .error (.fbCpp "assert(isValid())")
  else if t.state = .ACTIVE then .ok { handleValid := t.handleValid, state := .PREPARED }
  else .error (.fbCpp "assert(state == ACTIVE)")

/-- What the `Transaction` destructor (Transaction.h lines 413-430) does. -/
structure DtorOutcome where
  /-- The debug assertion `state != PREPARED` fired: a prepared transaction
  was destroyed without an explicit commit or rollback. -/
  assertionFailed : Bool
  /-- The destructor invoked `rollback()` on the still-active transaction. -/
  rolledBack : Bool
  /-- An exception thrown by the implicit rollback was swallowed. -/
  exceptionSwallowed : Bool
  deriving DecidableEq, Repr

/-- Mirror of the `Transaction` destructor (Transaction.h lines 413-430):
when the handle is still valid it asserts the state is not `PREPARED`, then
rolls back if and only if the state is `ACTIVE`, swallowing any failure of
that rollback (`rollbackThrows` says whether the engine rollback fails). -/
def destroy (t : Transaction) (rollbackThrows : Bool) : DtorOutcome :=
  if t.isValid then
    { assertionFailed := t.state = .PREPARED
      rolledBack := t.state = .ACTIVE
      exceptionSwallowed := t.state = .ACTIVE ∧ rollbackThrows }
  else
    { assertionFailed := false, rolledBack := false, exceptionSwallowed := false }

end Transaction

/-- Example metadata for exercising the layout deriver: one fixed-length text
field, which forces a rebuild. -/
def exampleField : MetaField :=
  { type := .TEXT, scale := 0, length := 3, isNullable := true,
    fieldName := "A", aliasName := "A", relationName := "T",
    offset := 0, nullOffset := 6 }

def exampleMetadata : MessageMetadata :=
  { fields := [exampleField], messageLength := 8 }

/-- Example engine answer to the rebuild request of exampleMetadata. -/
def exampleRebuilt : List (Nat × SqlType) → MessageMetadata := fun _ =>
  { fields := [{ exampleField with type := .STRING }], messageLength := 8 }

/-! ## Row-buffer integer codecs -/
/-- Encodes the low `n` bytes of an integer little endian, as
`reinterpret_cast` stores of an `n`-byte two's complement integer do. -/
def encodeIntLE (v : Int) (n : Nat) : List Nat :=
  (List.range n).map (fun i => ((v % ((2 : Int) ^ (8 * n))).toNat / 2 ^ (8 * i)) % 256)

/-- Reads an `n`-byte little-endian unsigned quantity. -/
def readUIntLE (buf : Buffer) (off n : Nat) : Nat :=
  (List.range n).foldl (fun acc i => acc + buf.byte (off + i) * 2 ^ (8 * i)) 0

/-- Reinterprets an unsigned value as a two's complement signed value. -/
def toSigned (u : Nat) (bits : Nat) : Int :=
  if u < 2 ^ (bits - 1) then (u : Int) else (u : Int) - 2 ^ bits

/-! ## Numeric conversion (NumericConverter and engine utilities)

The integer side of `NumericConverter::numberToNumber` is modelled
concretely; every conversion that involves IEEE floating point or the
engine decimal/int128/calendar utilities is an external collaborator and
enters the model through `ConvEnv`. -/
/-- A numeric source value as `convertNumber` sees it: a scaled integer
(INT16/32/64 and, through the Boost intermediate, INT128), raw IEEE float
bits, or raw decimal-float bytes. -/
inductive NumData where
  | sInt (v : Int) (scale : Int)
  | sF32 (bits : Nat)
  | sF64 (bits : Nat)
  | sDF16 (bytes : List Nat)
  | sDF34 (bytes : List Nat)
  deriving DecidableEq, Repr

/-- External conversion utilities.  These model the engine-provided
IDecFloat16Util/IDecFloat34Util/IInt128Util helpers, the CalendarConverter
codecs, and IEEE floating point arithmetic, none of which the marshalling
engine implements itself (spec section 6: conversion utilities are consumed
from the engine).  Strings are byte lists. -/
structure ConvEnv where
  toIntNum : NumData → Int → Nat → Except FbError Int
  toF32 : NumData → Int → Except FbError Nat
  toF64 : NumData → Int → Except FbError Nat
  toDF16 : NumData → Int → Except FbError (List Nat)
  toDF34 : NumData → Int → Except FbError (List Nat)
  f32ToStr : Nat → List Nat
  f64ToStr : Nat → List Nat
  df16ToStr : List Nat → List Nat
  df34ToStr : List Nat → List Nat
  int128ToStr : Int → Int → List Nat
  dateToStr : List Nat → List Nat
  timeToStr : List Nat → List Nat
  timestampToStr : List Nat → List Nat
  timeTzToStr : List Nat → List Nat
  timestampTzToStr : List Nat → List Nat
  strToDate : List Nat → Except FbError (List Nat)
  strToTime : List Nat → Except FbError (List Nat)
  strToTimestamp : List Nat → Except FbError (List Nat)
  strToTimeTz : List Nat → Except FbError (List Nat)
  strToTimestampTz : List Nat → Except FbError (List Nat)
  int128FromStr : Int → List Nat → Except FbError (List Nat)
  df16FromStr : List Nat → Except FbError (List Nat)
  df34FromStr : List Nat → Except FbError (List Nat)
  parseF64 : List Nat → Except FbError Nat

/-- Modelled from the spec: NumericConverter.h is not under src.  Spec
section 4.2: `numberToNumber` rescales by multiplying or dividing by powers
of ten, truncating toward zero on scale reduction, and signals overflow when
the rescaled magnitude exceeds the target range. -/
def rescaleFit (v : Int) (fromScale toScale : Int) (bits : Nat) :
    Except FbError Int :=
  let v2 : Int :=
    if toScale ≤ fromScale then v * (10 : Int) ^ (fromScale - toScale).toNat
    else Int.tdiv v ((10 : Int) ^ (toScale - fromScale).toNat)
  if -((2 : Int) ^ (bits - 1)) ≤ v2 ∧ v2 < (2 : Int) ^ (bits - 1) then .ok v2
  else .error (.conversion "numeric value overflow")

/-- The `numberToNumber` call with an integer target: concrete for scaled
integer sources, external for floating and decimal sources. -/
def numberToNumberInt (env : ConvEnv) (src : NumData) (toScale : Int)
    (bits : Nat) : Except FbError Int :=
  match src with
  | .sInt v s => rescaleFit v s toScale bits
  | other => env.toIntNum other toScale bits

/-! ## Statement marshalling state -/
/-- The marshalling state of a prepared statement: the two descriptor lists
and the two row buffers (Statement.h private fields). -/
structure Stmt where
  inDescriptors : List Descriptor
  inMessage : Buffer
  outDescriptors : List Descriptor
  outMessage : Buffer

/-- Mirror of `Statement::getInDescriptor` (Statement.h lines 2206-2212):
bounds-checked descriptor lookup throwing `std::out_of_range`. -/
def Stmt.getInDescriptor (st : Stmt) (index : Nat) : Except FbError Descriptor :=
  if h : index < st.inDescriptors.length then .ok (st.inDescriptors.get ⟨index, h⟩)
  else .error .outOfRange

/-- Mirror of `Statement::getOutDescriptor` (Statement.h lines 2217-2223). -/
def Stmt.getOutDescriptor (st : Stmt) (index : Nat) : Except FbError Descriptor :=
  if h : index < st.outDescriptors.length then .ok (st.outDescriptors.get ⟨index, h⟩)
  else .error .outOfRange

/-- Replaces the input message buffer. -/
def Stmt.setIn (st : Stmt) (buf : Buffer) : Stmt := { st with inMessage := buf }

/-- Byte size of the wire encoding of each opaque value kind (Firebird ABI
sizes; the exact numbers are not load bearing for any verified property). -/
def opaqueSize : SqlType → Nat
  | .DATE => 4
  | .TIME => 4
  | .TIMESTAMP => 8
  | .TIME_TZ => 6
  | .TIMESTAMP_TZ => 10
  | .INT128 => 16
  | .DECFLOAT16 => 8
  | .DECFLOAT34 => 16
  | .BLOB => 8
  | _ => 0

/-- Mirror of `Statement::isNull` (Statement.h lines 1480-1488). -/
def Stmt.isNull (st : Stmt) (index : Nat) : Except FbError Bool := do
  let d ← st.getOutDescriptor index
  pure (st.outMessage.read16 d.nullOffset != FB_FALSE)

/-! ## Typed getters (Statement.h result reading) -/
/-- The scale defaulting step at the head of `convertNumber` (Statement.h
lines 2646-2661): a missing target scale is an invalid-type error for
floating and decimal sources and defaults to the descriptor scale
otherwise. -/
def convertToScale (d : Descriptor) (toScale0 : Option Int) (typeName : String) :
    Except FbError Int :=
  match toScale0 with
  | some s => .ok s
  | none =>
    match d.adjustedType with
    | .DECFLOAT16 => .error (.invalidType typeName d.adjustedType)
    | .DECFLOAT34 => .error (.invalidType typeName d.adjustedType)
    | .FLOAT => .error (.invalidType typeName d.adjustedType)
    | .DOUBLE => .error (.invalidType typeName d.adjustedType)
    | _ => .ok d.scale

/-- Decodes the numeric source value of a column, merging the Boost
intermediate step of `getNumber` (INT128 and decimal floats, Statement.h
lines 2607-2631) with the reads in `convertNumber`. -/
def readNumSource (buf : Buffer) (d : Descriptor) : Option NumData :=
  match d.adjustedType with
  | .INT16 => some (.sInt (toSigned (readUIntLE buf d.offset 2) 16) d.scale)
  | .INT32 => some (.sInt (toSigned (readUIntLE buf d.offset 4) 32) d.scale)
  | .INT64 => some (.sInt (toSigned (readUIntLE buf d.offset 8) 64) d.scale)
  | .INT128 => some (.sInt (toSigned (readUIntLE buf d.offset 16) 128) d.scale)
  | .FLOAT => some (.sF32 (readUIntLE buf d.offset 4))
  | .DOUBLE => some (.sF64 (readUIntLE buf d.offset 8))
  | .DECFLOAT16 => some (.sDF16 (buf.readBytes d.offset 8))
  | .DECFLOAT34 => some (.sDF34 (buf.readBytes d.offset 16))
  | _ => none

/-- Mirror of `Statement::getNumber` with an integer target type: null check
first, then scale defaulting, then conversion dispatched on the adjusted
type (Statement.h lines 2588-2634 and 2642-2704). -/
def getIntColumn (env : ConvEnv) (st : Stmt) (index : Nat)
    (toScale0 : Option Int) (bits : Nat) (typeName : String) :
    Except FbError (Option Int) := do
  let d ← st.getOutDescriptor index
  if st.outMessage.read16 d.nullOffset != FB_FALSE then return none
  let ts ← convertToScale d toScale0 typeName
  match readNumSource st.outMessage d with
  | some src => do
      let v ← numberToNumberInt env src ts bits
      return some v
  | none => .error (.invalidType typeName d.adjustedType)

/-- Mirror of `Statement::getBool` (Statement.h lines 1493-1511). -/
def Stmt.getBool (st : Stmt) (index : Nat) : Except FbError (Option Bool) := do
  let d ← st.getOutDescriptor index
  if st.outMessage.read16 d.nullOffset != FB_FALSE then return none
  match d.adjustedType with
  | .BOOLEAN => return some (st.outMessage.byte d.offset != 0)
  | _ => .error (.invalidType "bool" d.adjustedType)

/-- Mirror of `Statement::getInt16`: a plain integer getter requests scale
zero. -/
def getInt16 (env : ConvEnv) (st : Stmt) (index : Nat) :
    Except FbError (Option Int) :=
  getIntColumn env st index (some 0) 16 "std::int16_t"

def getInt32 (env : ConvEnv) (st : Stmt) (index : Nat) :
    Except FbError (Option Int) :=
  getIntColumn env st index (some 0) 32 "std::int32_t"

def getInt64 (env : ConvEnv) (st : Stmt) (index : Nat) :
    Except FbError (Option Int) :=
  getIntColumn env st index (some 0) 64 "std::int64_t"

/-- Mirror of `Statement::getScaledInt16`: a scaled getter passes no scale,
so `convertNumber` adopts the descriptor scale, which is paired with the
converted magnitude. -/
def getScaledInt16 (env : ConvEnv) (st : Stmt) (index : Nat) :
    Except FbError (Option (Int × Int)) := do
  let d ← st.getOutDescriptor index
  match ← getIntColumn env st index none 16 "ScaledInt16" with
  | none => return none
  | some v => return some (v, d.scale)

def getScaledInt32 (env : ConvEnv) (st : Stmt) (index : Nat) :
    Except FbError (Option (Int × Int)) := do
  let d ← st.getOutDescriptor index
  match ← getIntColumn env st index none 32 "ScaledInt32" with
  | none => return none
  | some v => return some (v, d.scale)

def getScaledInt64 (env : ConvEnv) (st : Stmt) (index : Nat) :
    Except FbError (Option (Int × Int)) := do
  let d ← st.getOutDescriptor index
  match ← getIntColumn env st index none 64 "ScaledInt64" with
  | none => return none
  | some v => return some (v, d.scale)

/-- Mirror of the raw-value getters (`getOpaqueDate`, `getOpaqueTime`,
`getScaledOpaqueInt128` without its scale pairing, `getBlobId` and friends):
null check, exact adjusted-type match, verbatim bytes. -/
def getOpaque (st : Stmt) (index : Nat) (t : SqlType) (typeName : String) :
    Except FbError (Option (List Nat)) := do
  let d ← st.getOutDescriptor index
  if st.outMessage.read16 d.nullOffset != FB_FALSE then return none
  if d.adjustedType = t then
    return some (st.outMessage.readBytes d.offset (opaqueSize t))
  else .error (.invalidType typeName d.adjustedType)

/-- Mirror of `Statement::getScaledOpaqueInt128` (Statement.h lines
1573-1593): raw 128-bit bytes paired with the descriptor scale. -/
def getScaledOpaqueInt128 (st : Stmt) (index : Nat) :
    Except FbError (Option (List Nat × Int)) := do
  let d ← st.getOutDescriptor index
  match ← getOpaque st index .INT128 "ScaledOpaqueInt128" with
  | none => return none
  | some bytes => return some (bytes, d.scale)

/-- Byte string of the literal rendered for a true boolean. -/
def strTrue : List Nat := [116, 114, 117, 101]

/-- Byte string of the literal rendered for a false boolean. -/
def strFalse : List Nat := [102, 97, 108, 115, 101]

/-- Decimal digit bytes of a natural number, most significant first. -/
def natDigits (n : Nat) : List Nat :=
  if h : n < 10 then [48 + n]
  else natDigits (n / 10) ++ [48 + n % 10]
termination_by n
decreasing_by exact Nat.div_lt_self (by omega) (by norm_num)

/-- Modelled from the spec: NumericConverter.h is not under src.  Spec
section 4.2: number-to-string rendering of scaled decimal values is exact;
this renders magnitude and scale with a decimal point and no rounding. -/
def renderScaled (v : Int) (scale : Int) : List Nat :=
  let sign : List Nat := if v < 0 then [45] else []
  let mag := v.natAbs
  if scale = 0 then sign ++ natDigits mag
  else if 0 < scale then sign ++ natDigits mag ++ List.replicate scale.toNat 48
  else
    let k := (-scale).toNat
    let ds := natDigits mag
    let ds2 := if ds.length ≤ k then List.replicate (k + 1 - ds.length) 48 ++ ds else ds
    sign ++ ds2.take (ds2.length - k) ++ [46] ++ ds2.drop (ds2.length - k)

/-- Mirror of `Statement::getString` (Statement.h lines 1968-2036): null
check, then a rendering per adjusted type; a variable-length string column
is returned from its 2-byte length prefixed payload. -/
def getString (env : ConvEnv) (st : Stmt) (index : Nat) :
    Except FbError (Option (List Nat)) := do
  let d ← st.getOutDescriptor index
  if st.outMessage.read16 d.nullOffset != FB_FALSE then return none
  let buf := st.outMessage
  match d.adjustedType with
  | .BOOLEAN => return some (if buf.byte d.offset != 0 then strTrue else strFalse)
  | .INT16 => return some (renderScaled (toSigned (readUIntLE buf d.offset 2) 16) d.scale)
  | .INT32 => return some (renderScaled (toSigned (readUIntLE buf d.offset 4) 32) d.scale)
  | .INT64 => return some (renderScaled (toSigned (readUIntLE buf d.offset 8) 64) d.scale)
  | .INT128 => return some (env.int128ToStr (toSigned (readUIntLE buf d.offset 16) 128) d.scale)
  | .FLOAT => return some (env.f32ToStr (readUIntLE buf d.offset 4))
  | .DOUBLE => return some (env.f64ToStr (readUIntLE buf d.offset 8))
  | .DATE => return some (env.dateToStr (buf.readBytes d.offset 4))
  | .TIME => return some (env.timeToStr (buf.readBytes d.offset 4))
  | .TIMESTAMP => return some (env.timestampToStr (buf.readBytes d.offset 8))
  | .TIME_TZ => return some (env.timeTzToStr (buf.readBytes d.offset 6))
  | .TIMESTAMP_TZ => return some (env.timestampTzToStr (buf.readBytes d.offset 10))
  | .DECFLOAT16 => return some (env.df16ToStr (buf.readBytes d.offset 8))
  | .DECFLOAT34 => return some (env.df34ToStr (buf.readBytes d.offset 16))
  | .STRING => return some (buf.readBytes (d.offset + 2) (buf.read16 d.offset))
  | _ => .error (.invalidType "std::string" d.adjustedType)

/-- The typed getters of the embedding, for quantifying over the getter
surface. -/
inductive GetterKind where
  | gBool
  | gInt16
  | gScaledInt16
  | gInt32
  | gScaledInt32
  | gInt64
  | gScaledInt64
  | gScaledOpaqueInt128
  | gOpaqueDecFloat16
  | gOpaqueDecFloat34
  | gOpaqueDate
  | gOpaqueTime
  | gOpaqueTimestamp
  | gOpaqueTimeTz
  | gOpaqueTimestampTz
  | gBlobId
  | gString
  deriving DecidableEq, Repr

/-- A value produced by a typed getter. -/
inductive FbValue where
  | vBool (b : Bool)
  | vInt (v : Int)
  | vScaled (v : Int) (scale : Int)
  | vScaledBytes (bytes : List Nat) (scale : Int)
  | vBytes (bytes : List Nat)
  | vStr (s : List Nat)
  deriving DecidableEq, Repr

/-- Runs one typed getter. -/
def runGetter (env : ConvEnv) (k : GetterKind) (st : Stmt) (index : Nat) :
    Except FbError (Option FbValue) :=
  match k with
  | .gBool => (st.getBool index).map (Option.map .vBool)
  | .gInt16 => (getInt16 env st index).map (Option.map .vInt)
  | .gInt32 => (getInt32 env st index).map (Option.map .vInt)
  | .gInt64 => (getInt64 env st index).map (Option.map .vInt)
  | .gScaledInt16 =>
      (getScaledInt16 env st index).map (Option.map (fun p => .vScaled p.1 p.2))
  | .gScaledInt32 =>
      (getScaledInt32 env st index).map (Option.map (fun p => .vScaled p.1 p.2))
  | .gScaledInt64 =>
      (getScaledInt64 env st index).map (Option.map (fun p => .vScaled p.1 p.2))
  | .gScaledOpaqueInt128 =>
      (getScaledOpaqueInt128 st index).map
        (Option.map (fun p => .vScaledBytes p.1 p.2))
  | .gOpaqueDecFloat16 =>
      (getOpaque st index .DECFLOAT16 "OpaqueDecFloat16").map (Option.map .vBytes)
  | .gOpaqueDecFloat34 =>
      (getOpaque st index .DECFLOAT34 "OpaqueDecFloat34").map (Option.map .vBytes)
  | .gOpaqueDate => (getOpaque st index .DATE "OpaqueDate").map (Option.map .vBytes)
  | .gOpaqueTime => (getOpaque st index .TIME "OpaqueTime").map (Option.map .vBytes)
  | .gOpaqueTimestamp =>
      (getOpaque st index .TIMESTAMP "OpaqueTimestamp").map (Option.map .vBytes)
  | .gOpaqueTimeTz =>
      (getOpaque st index .TIME_TZ "OpaqueTimeTz").map (Option.map .vBytes)
  | .gOpaqueTimestampTz =>
      (getOpaque st index .TIMESTAMP_TZ "OpaqueTimestampTz").map (Option.map .vBytes)
  | .gBlobId => (getOpaque st index .BLOB "BlobId").map (Option.map .vBytes)
  | .gString => (getString env st index).map (Option.map .vStr)

/-! ## Typed setters (Statement.h parameter writing) -/
/-- Mirror of `Statement::setNull` (Statement.h lines 410-418). -/
def Stmt.setNull (st : Stmt) (index : Nat) : Except FbError Stmt := do
  let d ← st.getInDescriptor index
  return st.setIn (st.inMessage.write16 d.nullOffset FB_TRUE)

/-- Mirror of `Statement::setBool` (Statement.h lines 425-450). -/
def Stmt.setBool (st : Stmt) (index : Nat) (optValue : Option Bool) :
    Except FbError Stmt :=
  match optValue with
  | none => st.setNull index
  | some value => do
    let d ← st.getInDescriptor index
    match d.adjustedType with
    | .BOOLEAN =>
        let buf1 := st.inMessage.setByte d.offset (if value then 1 else 0)
        return st.setIn (buf1.write16 d.nullOffset FB_FALSE)
    | _ => .error (.invalidType "bool" d.adjustedType)

/-- Mirror of `Statement::setNumber` (Statement.h lines 2502-2582): convert
the typed value to the representation and scale of the target column, store
it, clear the null flag. -/
def setNumber (env : ConvEnv) (st : Stmt) (index : Nat) (val : NumData)
    (typeName : String) : Except FbError Stmt := do
  let d ← st.getInDescriptor index
  let buf := st.inMessage
  match d.adjustedType with
  | .INT16 => do
      let v ← numberToNumberInt env val d.scale 16
      return st.setIn
        ((buf.writeBytes d.offset (encodeIntLE v 2)).write16 d.nullOffset FB_FALSE)
  | .INT32 => do
      let v ← numberToNumberInt env val d.scale 32
      return st.setIn
        ((buf.writeBytes d.offset (encodeIntLE v 4)).write16 d.nullOffset FB_FALSE)
  | .INT64 => do
      let v ← numberToNumberInt env val d.scale 64
      return st.setIn
        ((buf.writeBytes d.offset (encodeIntLE v 8)).write16 d.nullOffset FB_FALSE)
  | .INT128 => do
      let v ← numberToNumberInt env val d.scale 128
      return st.setIn
        ((buf.writeBytes d.offset (encodeIntLE v 16)).write16 d.nullOffset FB_FALSE)
  | .FLOAT => do
      let bits ← env.toF32 val d.scale
      return st.setIn
        ((buf.writeBytes d.offset (encodeIntLE bits 4)).write16 d.nullOffset FB_FALSE)
  | .DOUBLE => do
      let bits ← env.toF64 val d.scale
      return st.setIn
        ((buf.writeBytes d.offset (encodeIntLE bits 8)).write16 d.nullOffset FB_FALSE)
  | .DECFLOAT16 => do
      let bytes ← env.toDF16 val d.scale
      return st.setIn
        ((buf.writeBytes d.offset bytes).write16 d.nullOffset FB_FALSE)
  | .DECFLOAT34 => do
      let bytes ← env.toDF34 val d.scale
      return st.setIn
        ((buf.writeBytes d.offset bytes).write16 d.nullOffset FB_FALSE)
  | _ => .error (.invalidType typeName d.adjustedType)

/-- Mirror of `Statement::setInt16` (Statement.h lines 455-464). -/
def setInt16 (env : ConvEnv) (st : Stmt) (index : Nat) (optValue : Option Int) :
    Except FbError Stmt :=
  match optValue with
  | none => st.setNull index
  | some v => setNumber env st index (.sInt v 0) "std::int16_t"

/-- Mirror of `Statement::setInt32`. -/
def setInt32 (env : ConvEnv) (st : Stmt) (index : Nat) (optValue : Option Int) :
    Except FbError Stmt :=
  match optValue with
  | none => st.setNull index
  | some v => setNumber env st index (.sInt v 0) "std::int32_t"

/-- Mirror of `Statement::setInt64`. -/
def setInt64 (env : ConvEnv) (st : Stmt) (index : Nat) (optValue : Option Int) :
    Except FbError Stmt :=
  match optValue with
  | none => st.setNull index
  | some v => setNumber env st index (.sInt v 0) "std::int64_t"

/-- Mirror of `Statement::setScaledInt16`. -/
def setScaledInt16 (env : ConvEnv) (st : Stmt) (index : Nat)
    (optValue : Option (Int × Int)) : Except FbError Stmt :=
  match optValue with
  | none => st.setNull index
  | some p => setNumber env st index (.sInt p.1 p.2) "ScaledInt16"

/-- Mirror of `Statement::setScaledInt32`. -/
def setScaledInt32 (env : ConvEnv) (st : Stmt) (index : Nat)
    (optValue : Option (Int × Int)) : Except FbError Stmt :=
  match optValue with
  | none => st.setNull index
  | some p => setNumber env st index (.sInt p.1 p.2) "ScaledInt32"

/-- Mirror of `Statement::setScaledInt64` (Statement.h lines 527-537). -/
def setScaledInt64 (env : ConvEnv) (st : Stmt) (index : Nat)
    (optValue : Option (Int × Int)) : Except FbError Stmt :=
  match optValue with
  | none => st.setNull index
  | some p => setNumber env st index (.sInt p.1 p.2) "ScaledInt64"

/-- Mirror of the raw-value setters (`setOpaqueDate`, `setBlobId`, ...):
exact adjusted-type match, verbatim bytes, null flag cleared. -/
def setOpaque (st : Stmt) (index : Nat) (t : SqlType) (bytes : List Nat)
    (typeName : String) : Except FbError Stmt := do
  let d ← st.getInDescriptor index
  if d.adjustedType = t then
    return st.setIn
      ((st.inMessage.writeBytes d.offset bytes).write16 d.nullOffset FB_FALSE)
  else .error (.invalidType typeName d.adjustedType)

/-- Modelled from the spec: NumericConverter.h is not under src.  Spec
section 4.2: boolean from string uses the literals true and false; anything
else is a conversion error. -/
def stringToBoolean (value : List Nat) : Except FbError Nat :=
  if value = strTrue then .ok 1
  else if value = strFalse then .ok 0
  else .error (.conversion "cannot convert string to boolean")

/-- Tests whether a byte is an ASCII decimal digit, as the parse loop in
`setString` does with its `c < '0' || c > '9'` comparison. -/
def isDigitByte (c : Nat) : Bool := decide (48 ≤ c) && decide (c ≤ 57)

/-- Length of the leading run of digit bytes, mirroring the scale-counting
loop of `setString` that stops at the first non-digit (Statement.h lines
1059-1067). -/
def digitRunLength : List Nat → Nat
  | [] => 0
  | c :: rest => if isDigitByte c then digitRunLength rest + 1 else 0

/-- Position of the last decimal point, mirroring
`std::string::find_last_of` on the dot. -/
def findLastDot (value : List Nat) : Option Nat :=
  (((value.enumFrom 0).filter (fun p => p.2 == 46)).getLast?).map (fun p => p.1)

/-- Model of `std::from_chars` into a 64-bit signed integer followed by the
full-consumption check of `setString` (Statement.h lines 1072-1077): an
optional leading minus and at least one digit must cover the whole text, and
the value must fit 64 bits; otherwise the conversion error is raised. -/
def fromCharsInt64 (s : List Nat) : Except FbError Int :=
  let signed := match s with
    | 45 :: rest => (true, rest)
    | _ => (false, s)
  let neg := signed.1
  let digits := signed.2
  if digits = [] ∨ ¬ digits.all isDigitByte then
    .error (.conversion "cannot convert string to number")
  else
    let n : Nat := digits.foldl (fun acc c => acc * 10 + (c - 48)) 0
    let v : Int := if neg then -(n : Int) else (n : Int)
    if -((2 : Int) ^ 63) ≤ v ∧ v < (2 : Int) ^ 63 then .ok v
    else .error (.conversion "cannot convert string to number")

/-- The decimal-point preprocessing of the `setString` integer case
(Statement.h lines 1054-1078): find the last dot, count the digit run after
it as a negative inferred scale, erase the dot, parse the rest as an int64.
Returns magnitude and inferred scale. -/
def parseIntegerText (value : List Nat) : Except FbError (Int × Int) :=
  match findLastDot value with
  | none => (fromCharsInt64 value).map (fun v => (v, 0))
  | some p =>
      let scale : Int := -(Int.ofNat (digitRunLength (value.drop (p + 1))))
      let erased := value.take p ++ value.drop (p + 1)
      (fromCharsInt64 erased).map (fun v => (v, scale))

/-- The tail of the `setString` integer case (Statement.h lines 1078-1088):
rescale the parsed scaled value to the descriptor scale when they differ,
then store it through `setScaledInt64`. -/
def bindParsedInteger (env : ConvEnv) (st : Stmt) (index : Nat) (d : Descriptor)
    (v : Int) (scale : Int) : Except FbError Stmt := do
  let w ← if scale ≠ d.scale then numberToNumberInt env (.sInt v scale) d.scale 64
          else pure v
  setScaledInt64 env st index (some (w, d.scale))

/-- Mirror of `Statement::setString` (Statement.h lines 1028-1180). -/
def setString (env : ConvEnv) (st : Stmt) (index : Nat)
    (optValue : Option (List Nat)) : Except FbError Stmt :=
  match optValue with
  | none => st.setNull index
  | some value => do
    let d ← st.getInDescriptor index
    let buf := st.inMessage
    match d.adjustedType with
    | .BOOLEAN => do
        let b ← stringToBoolean value
        return st.setIn ((buf.setByte d.offset b).write16 d.nullOffset FB_FALSE)
    | .INT16 => do
        let p ← parseIntegerText value
        bindParsedInteger env st index d p.1 p.2
    | .INT32 => do
        let p ← parseIntegerText value
        bindParsedInteger env st index d p.1 p.2
    | .INT64 => do
        let p ← parseIntegerText value
        bindParsedInteger env st index d p.1 p.2
    | .INT128 => do
        let bytes ← env.int128FromStr d.scale value
        return st.setIn ((buf.writeBytes d.offset bytes).write16 d.nullOffset FB_FALSE)
    | .FLOAT => do
        let bits ← env.parseF64 value
        setNumber env st index (.sF64 bits) "double"
    | .DOUBLE => do
        let bits ← env.parseF64 value
        setNumber env st index (.sF64 bits) "double"
    | .DATE => do
        let bytes ← env.strToDate value
        return st.setIn ((buf.writeBytes d.offset bytes).write16 d.nullOffset FB_FALSE)
    | .TIME => do
        let bytes ← env.strToTime value
        return st.setIn ((buf.writeBytes d.offset bytes).write16 d.nullOffset FB_FALSE)
    | .TIMESTAMP => do
        let bytes ← env.strToTimestamp value
        return st.setIn ((buf.writeBytes d.offset bytes).write16 d.nullOffset FB_FALSE)
    | .TIME_TZ => do
        let bytes ← env.strToTimeTz value
        return st.setIn ((buf.writeBytes d.offset bytes).write16 d.nullOffset FB_FALSE)
    | .TIMESTAMP_TZ => do
        let bytes ← env.strToTimestampTz value
        return st.setIn ((buf.writeBytes d.offset bytes).write16 d.nullOffset FB_FALSE)
    | .DECFLOAT16 => do
        let bytes ← env.df16FromStr value
        return st.setIn ((buf.writeBytes d.offset bytes).write16 d.nullOffset FB_FALSE)
    | .DECFLOAT34 => do
        let bytes ← env.df34FromStr value
        return st.setIn ((buf.writeBytes d.offset bytes).write16 d.nullOffset FB_FALSE)
    | .STRING =>
        if value.length > d.length then .error (.database STATUS_STRING_TRUNCATION)
        else
          let buf1 := buf.write16 d.offset value.length
          let buf2 := buf1.writeBytes (d.offset + 2) value
          return st.setIn (buf2.write16 d.nullOffset FB_FALSE)
    | _ => .error (.invalidType "std::string_view" d.adjustedType)

/-- The modelled setter surface, for quantifying over accessors. -/
inductive SetterOp where
  | oNull
  | oBool (v : Option Bool)
  | oInt16 (v : Option Int)
  | oInt64 (v : Option Int)
  | oScaledInt64 (v : Option (Int × Int))
  | oString (v : Option (List Nat))
  | oOpaqueDate (v : List Nat)
  | oBlobId (v : List Nat)
  deriving Repr

/-- Runs one typed setter. -/
def runSetter (env : ConvEnv) (st : Stmt) (op : SetterOp) (index : Nat) :
    Except FbError Stmt :=
  match op with
  | .oNull => st.setNull index
  | .oBool v => st.setBool index v
  | .oInt16 v => setInt16 env st index v
  | .oInt64 v => setInt64 env st index v
  | .oScaledInt64 v => setScaledInt64 env st index v
  | .oString v => setString env st index v
  | .oOpaqueDate v => setOpaque st index .DATE v "OpaqueDate"
  | .oBlobId v => setOpaque st index .BLOB v "BlobId"

/-! ## Generic record and tuple binding (Statement.h lines 2055-2292) -/
/-- One field position of an aggregate or tuple being read: the getter the
declared field type selects, and whether the field is optional. -/
inductive FieldReq where
  | required (k : GetterKind)
  | optionalReq (k : GetterKind)
  deriving Repr

/-- Mirror of `Statement::getStructField` (Statement.h lines 2239-2260): an
optional field forwards the getter result; a non-optional field unwraps it
and turns a null column into an error. -/
def getStructField (env : ConvEnv) (st : Stmt) (r : FieldReq) (index : Nat) :
    Except FbError (Option FbValue) :=
  match r with
  | .optionalReq k => runGetter env k st index
  | .required k => do
      match ← runGetter env k st index with
      | some v => return (some v)
      | none =>
          .error (.fbCpp "Null value encountered for non-optional field at index")

/-- The positional fold of `getStruct`/`getTuple` (Statement.h lines
2228-2234 and 2277-2283): field `i` reads column `i`. -/
def getFields (env : ConvEnv) (st : Stmt) :
    List FieldReq → Nat → Except FbError (List (Option FbValue))
  | [], _ => .ok []
  | r :: rest, i => do
      let v ← getStructField env st r i
      let vs ← getFields env st rest (i + 1)
      return (v :: vs)

/-- Mirror of `Statement::get` for aggregates and tuple-like types
(Statement.h lines 2055-2069 and 2100-2114): the field or element count must
equal the output column count exactly, then fields bind positionally. -/
def getRecord (env : ConvEnv) (st : Stmt) (reqs : List FieldReq) :
    Except FbError (List (Option FbValue)) :=
  if reqs.length ≠ st.outDescriptors.length then
    .error (.fbCpp "Struct field count does not match output column count")
  else getFields env st reqs 0

/-- The positional fold of `setStruct`/`setTuple` (Statement.h lines
2265-2272 and 2288-2292). -/
def setFields (env : ConvEnv) : Stmt → List SetterOp → Nat → Except FbError Stmt
  | st, [], _ => .ok st
  | st, op :: rest, i => do
      let st2 ← runSetter env st op i
      setFields env st2 rest (i + 1)

/-- Mirror of `Statement::set` for aggregates and tuple-like types
(Statement.h lines 2077-2091 and 2122-2134). -/
def setRecord (env : ConvEnv) (st : Stmt) (vals : List SetterOp) :
    Except FbError Stmt :=
  if vals.length ≠ st.inDescriptors.length then
    .error (.fbCpp "Struct field count does not match input parameter count")
  else setFields env st vals 0

/-! ## Variant binding (Statement.h lines 2144-2171 and 2298-2497) -/
/-- The variant alternative kinds supported by fb-cpp
(VariantTypeTraits.h lists the supported types; the getters they select are
in Statement.h).  Built with Boost multiprecision enabled, matching the
`FB_CPP_USE_BOOST_MULTIPRECISION != 0` branches. -/
inductive VarAlt where
  | aMonostate
  | aBool
  | aInt16
  | aScaledInt16
  | aInt32
  | aScaledInt32
  | aInt64
  | aScaledInt64
  | aScaledOpaqueInt128
  | aBoostInt128
  | aScaledBoostInt128
  | aFloat
  | aDouble
  | aOpaqueDecFloat16
  | aBoostDecFloat16
  | aOpaqueDecFloat34
  | aBoostDecFloat34
  | aString
  | aDate
  | aOpaqueDate
  | aTime
  | aOpaqueTime
  | aTimestamp
  | aOpaqueTimestamp
  | aTimeTz
  | aOpaqueTimeTz
  | aTimestampTz
  | aOpaqueTimestampTz
  | aBlobId
  deriving DecidableEq, Repr

/-- Modelled from the spec: VariantTypeTraits.h (the `isOpaqueTypeV` trait)
is not under src.  The opaque alternatives are the ones carrying engine
native bit-exact encodings (the Opaque-prefixed types and the scaled opaque
128-bit integer); spec section 3 lists the opaque types and section 4.4 says
opaque alternatives only match their exact wire type. -/
def isOpaqueAlt : VarAlt → Bool
  | .aScaledOpaqueInt128 => true
  | .aOpaqueDecFloat16 => true
  | .aOpaqueDecFloat34 => true
  | .aOpaqueDate => true
  | .aOpaqueTime => true
  | .aOpaqueTimestamp => true
  | .aOpaqueTimeTz => true
  | .aOpaqueTimestampTz => true
  | _ => false

/-- First preferred alternative present in the variant, mirroring a run of
`if constexpr (variantContainsV<T, V>) return ...` fallthroughs. -/
def firstMem (alts : List VarAlt) (prefs : List VarAlt) : Option VarAlt :=
  prefs.find? (fun a => alts.contains a)

/-- Mirror of the exact-match switch of `Statement::getVariantValue`
(Statement.h lines 2304-2457), dispatching on the adjusted type with the
scale tests and preference chains of the source. -/
def exactVariantMatch (alts : List VarAlt) (d : Descriptor) : Option VarAlt :=
  match d.adjustedType with
  | .BOOLEAN => if alts.contains .aBool then some .aBool else none
  | .INT16 =>
      (if d.scale != 0 then
        firstMem alts [.aScaledInt16, .aScaledInt32, .aScaledInt64, .aScaledBoostInt128]
      else none).or
        (if alts.contains .aInt16 then some .aInt16 else none)
  | .INT32 =>
      (if d.scale != 0 then
        firstMem alts [.aScaledInt32, .aScaledInt64, .aScaledBoostInt128]
      else none).or
        (if alts.contains .aInt32 then some .aInt32 else none)
  | .INT64 =>
      (if d.scale != 0 then
        firstMem alts [.aScaledInt64, .aScaledBoostInt128]
      else none).or
        (if alts.contains .aInt64 then some .aInt64 else none)
  | .INT128 =>
      if alts.contains .aScaledOpaqueInt128 then some .aScaledOpaqueInt128
      else if d.scale != 0 then
        if alts.contains .aScaledBoostInt128 then some .aScaledBoostInt128 else none
      else if alts.contains .aBoostInt128 then some .aBoostInt128 else none
  | .FLOAT => if alts.contains .aFloat then some .aFloat else none
  | .DOUBLE => if alts.contains .aDouble then some .aDouble else none
  | .DECFLOAT16 =>
      if alts.contains .aOpaqueDecFloat16 then some .aOpaqueDecFloat16
      else if alts.contains .aBoostDecFloat16 then some .aBoostDecFloat16 else none
  | .DECFLOAT34 =>
      if alts.contains .aOpaqueDecFloat34 then some .aOpaqueDecFloat34
      else if alts.contains .aBoostDecFloat34 then some .aBoostDecFloat34 else none
  | .STRING => if alts.contains .aString then some .aString else none
  | .DATE =>
      if alts.contains .aOpaqueDate then some .aOpaqueDate
      else if alts.contains .aDate then some .aDate else none
  | .TIME =>
      if alts.contains .aOpaqueTime then some .aOpaqueTime
      else if alts.contains .aTime then some .aTime else none
  | .TIMESTAMP =>
      if alts.contains .aOpaqueTimestamp then some .aOpaqueTimestamp
      else if alts.contains .aTimestamp then some .aTimestamp else none
  | .TIME_TZ =>
      if alts.contains .aOpaqueTimeTz then some .aOpaqueTimeTz
      else if alts.contains .aTimeTz then some .aTimeTz else none
  | .TIMESTAMP_TZ =>
      if alts.contains .aOpaqueTimestampTz then some .aOpaqueTimestampTz
      else if alts.contains .aTimestampTz then some .aTimestampTz else none
  | .BLOB => if alts.contains .aBlobId then some .aBlobId else none
  | _ => none

/-- Mirror of `Statement::tryVariantAlternatives` (Statement.h lines
2466-2497): walk the alternatives in declared order, skip the monostate and
every opaque alternative, attempt the first remaining one through its getter
(`conv`; the result of `get<std::optional<Alt>>` at this column) and
propagate that result; an empty tail is the no-alternative error. -/
def tryVariantAlternatives (conv : VarAlt → Except FbError Unit) :
    List VarAlt → Except FbError VarAlt
  | [] => .error (.fbCpp "Cannot convert SQL type to any variant alternative at index")
  | a :: rest =>
      if a = .aMonostate then tryVariantAlternatives conv rest
      else if isOpaqueAlt a then tryVariantAlternatives conv rest
      else (conv a).map (fun _ => a)

/-- Mirror of `Statement::getVariantValue` (Statement.h lines 2298-2461):
the exact pass, then the declared-order fallback.  Alternatives selected by
the exact pass read with matching types, so the exact pass returns its
selection directly. -/
def getVariantValue (alts : List VarAlt) (d : Descriptor)
    (conv : VarAlt → Except FbError Unit) : Except FbError VarAlt :=
  match exactVariantMatch alts d with
  | some a => .ok a
  | none => tryVariantAlternatives conv alts

/-- Mirror of `Statement::get` for variant-like types (Statement.h lines
2144-2171): bounds-checked descriptor lookup, null check answered by the
monostate alternative or an error, then value resolution. -/
def getVariant (alts : List VarAlt) (st : Stmt) (index : Nat)
    (conv : VarAlt → Except FbError Unit) : Except FbError VarAlt := do
  let d ← st.getOutDescriptor index
  let n ← st.isNull index
  if n then
    (if alts.contains .aMonostate then Except.ok .aMonostate
     else Except.error
       (FbError.fbCpp
         "NULL value encountered but variant does not contain std::monostate at index") :
      Except FbError VarAlt)
  else getVariantValue alts d conv

/-- Whether an attempted conversion succeeded. -/
def convOk (e : Except FbError Unit) : Bool :=
  match e with
  | .ok _ => true
  | .error _ => false

/-- The per-type exact-match preference order of the claimed resolution
rules, written from the specification text: a scaled integer column prefers
same-or-larger scaled integer alternatives over the plain integer, a 128-bit
or decimal-float column prefers its native opaque alternative over the
portable numeric alternative, calendar columns prefer the opaque form over
the portable form. -/
def exactPriority (d : Descriptor) : List VarAlt :=
  match d.adjustedType with
  | .BOOLEAN => [.aBool]
  | .INT16 =>
      if d.scale != 0 then
        [.aScaledInt16, .aScaledInt32, .aScaledInt64, .aScaledBoostInt128, .aInt16]
      else [.aInt16]
  | .INT32 =>
      if d.scale != 0 then
        [.aScaledInt32, .aScaledInt64, .aScaledBoostInt128, .aInt32]
      else [.aInt32]
  | .INT64 =>
      if d.scale != 0 then [.aScaledInt64, .aScaledBoostInt128, .aInt64]
      else [.aInt64]
  | .INT128 =>
      if d.scale != 0 then [.aScaledOpaqueInt128, .aScaledBoostInt128]
      else [.aScaledOpaqueInt128, .aBoostInt128]
  | .FLOAT => [.aFloat]
  | .DOUBLE => [.aDouble]
  | .DECFLOAT16 => [.aOpaqueDecFloat16, .aBoostDecFloat16]
  | .DECFLOAT34 => [.aOpaqueDecFloat34, .aBoostDecFloat34]
  | .STRING => [.aString]
  | .DATE => [.aOpaqueDate, .aDate]
  | .TIME => [.aOpaqueTime, .aTime]
  | .TIMESTAMP => [.aOpaqueTimestamp, .aTimestamp]
  | .TIME_TZ => [.aOpaqueTimeTz, .aTimeTz]
  | .TIMESTAMP_TZ => [.aOpaqueTimestampTz, .aTimestampTz]
  | .BLOB => [.aBlobId]
  | _ => []

/-- Specification-side exact match: the first alternative of the preference
order that the variant declares. -/
def specExactMatch (d : Descriptor) (alts : List VarAlt) : Option VarAlt :=
  (exactPriority d).find? (fun a => alts.contains a)

/-- The variant read resolution exactly as the claim states it: null column
yields monostate or an error; otherwise an exact adjusted-type match with
the stated preferences; otherwise the remaining alternatives are tried
strictly in declared order, skipping opaque-encoded alternatives, and the
first alternative whose conversion succeeds is returned; no match is an
error. -/
def claimResolve (alts : List VarAlt) (d : Descriptor) (isNullCol : Bool)
    (conv : VarAlt → Except FbError Unit) : Except FbError VarAlt :=
  if isNullCol then
    if alts.contains .aMonostate then .ok .aMonostate
    else .error
      (.fbCpp "NULL value encountered but variant does not contain std::monostate at index")
  else
    match specExactMatch d alts with
    | some a => .ok a
    | none =>
        match alts.find? (fun a => !(a == .aMonostate) && !isOpaqueAlt a && convOk (conv a)) with
        | some a => .ok a
        | none =>
            .error (.fbCpp "Cannot convert SQL type to any variant alternative at index")

/-- The variant read resolution as amended: identical to the claim except in
the fallback pass, where only the first non-null non-opaque alternative in
declared order is attempted and its conversion outcome, success or error, is
the result; later alternatives are never tried. -/
def amendedResolve (alts : List VarAlt) (d : Descriptor) (isNullCol : Bool)
    (conv : VarAlt → Except FbError Unit) : Except FbError VarAlt :=
  if isNullCol then
    if alts.contains .aMonostate then .ok .aMonostate
    else .error
      (.fbCpp "NULL value encountered but variant does not contain std::monostate at index")
  else
    match specExactMatch d alts with
    | some a => .ok a
    | none =>
        match alts.find? (fun a => !(a == .aMonostate) && !isOpaqueAlt a) with
        | some a => (conv a).map (fun _ => a)
        | none =>
            .error (.fbCpp "Cannot convert SQL type to any variant alternative at index")

/-- A conversion environment whose external collaborators all fail, usable
as a concrete instantiation. -/
def trivialEnv : ConvEnv :=
  { toIntNum := fun _ _ _ => .error (.conversion "external")
    toF32 := fun _ _ => .error (.conversion "external")
    toF64 := fun _ _ => .error (.conversion "external")
    toDF16 := fun _ _ => .error (.conversion "external")
    toDF34 := fun _ _ => .error (.conversion "external")
    f32ToStr := fun _ => []
    f64ToStr := fun _ => []
    df16ToStr := fun _ => []
    df34ToStr := fun _ => []
    int128ToStr := fun _ _ => []
    dateToStr := fun _ => []
    timeToStr := fun _ => []
    timestampToStr := fun _ => []
    timeTzToStr := fun _ => []
    timestampTzToStr := fun _ => []
    strToDate := fun _ => .error (.conversion "external")
    strToTime := fun _ => .error (.conversion "external")
    strToTimestamp := fun _ => .error (.conversion "external")
    strToTimeTz := fun _ => .error (.conversion "external")
    strToTimestampTz := fun _ => .error (.conversion "external")
    int128FromStr := fun _ _ => .error (.conversion "external")
    df16FromStr := fun _ => .error (.conversion "external")
    df34FromStr := fun _ => .error (.conversion "external")
    parseF64 := fun _ => .error (.conversion "external") }

/-- A concrete one-column, one-parameter statement state for witnesses: the
input parameter is a scaled INT32 at offset 0 with its null flag at offset
4, the output column likewise. -/
def exampleDescriptor : Descriptor :=
  { originalType := .INT32, adjustedType := .INT32, scale := -2, length := 4,
    offset := 0, nullOffset := 4, isNullable := true,
    fieldName := "N", aliasName := "N", relationName := "T" }

def exampleStmt : Stmt :=
  { inDescriptors := [exampleDescriptor]
    inMessage := [0, 0, 0, 0, 1, 0]
    outDescriptors := [exampleDescriptor]
    outMessage := [57, 48, 0, 0, 0, 0] }

/-- A plain (scale zero) INT32 output column. -/
def ceDescriptor : Descriptor := { exampleDescriptor with scale := 0 }

/-- A statement whose single output column is a non-null plain INT32. -/
def ceStmt : Stmt := { exampleStmt with outDescriptors := [ceDescriptor] }

/-- The conversion outcomes of the real getters at a plain INT32 column:
`get<std::optional<Date>>` raises the invalid-type error (`getDate` accepts
only DATE columns, Statement.h lines 1706-1725), while
`get<std::optional<std::string>>` succeeds (`getString` renders INT32,
Statement.h lines 1989-1991). -/
def ceConv : VarAlt → Except FbError Unit := fun a =>
  if a = VarAlt.aString then .ok () else .error (.invalidType "Date" .INT32)

/-- Size bounds on the external codecs: each engine-side encoder produces the
wire size of its type, as the fixed-size C++ structs do. -/
def envSpanBounded (env : ConvEnv) : Prop :=
  (∀ s v r, env.toDF16 s v = .ok r → r.length = 8) ∧
  (∀ s v r, env.toDF34 s v = .ok r → r.length = 16) ∧
  (∀ sc s r, env.int128FromStr sc s = .ok r → r.length = 16) ∧
  (∀ s r, env.strToDate s = .ok r → r.length = 4) ∧
  (∀ s r, env.strToTime s = .ok r → r.length = 4) ∧
  (∀ s r, env.strToTimestamp s = .ok r → r.length = 8) ∧
  (∀ s r, env.strToTimeTz s = .ok r → r.length = 6) ∧
  (∀ s r, env.strToTimestampTz s = .ok r → r.length = 10) ∧
  (∀ s r, env.df16FromStr s = .ok r → r.length = 8) ∧
  (∀ s r, env.df34FromStr s = .ok r → r.length = 16)

/-- Byte span of the value a setter writes into a field of each adjusted
type. -/
def fieldSpan (d : Descriptor) : Nat :=
  match d.adjustedType with
  | .BOOLEAN => 1
  | .INT16 => 2
  | .INT32 => 4
  | .INT64 => 8
  | .INT128 => 16
  | .FLOAT => 4
  | .DOUBLE => 8
  | .DECFLOAT16 => 8
  | .DECFLOAT34 => 16
  | .STRING => 2 + d.length
  | .DATE => 4
  | .TIME => 4
  | .TIMESTAMP => 8
  | .TIME_TZ => 6
  | .TIMESTAMP_TZ => 10
  | .BLOB => 8
  | _ => 0

/-- Bytes of the input buffer outside the value span and the null slot of a
field. -/
def outsideField (d : Descriptor) (j : Nat) : Prop :=
  (j < d.offset ∨ d.offset + fieldSpan d ≤ j) ∧
  (j < d.nullOffset ∨ d.nullOffset + 2 ≤ j)

/-- Value, descriptor-list and output-buffer preservation plus the in-buffer
footprint of one setter run. -/
def setterFootprint (st st2 : Stmt) (d : Descriptor) : Prop :=
  st2.outMessage = st.outMessage ∧ st2.inDescriptors = st.inDescriptors ∧
  st2.outDescriptors = st.outDescriptors ∧
  ∀ j, outsideField d j → st2.inMessage.byte j = st.inMessage.byte j

/-- Size constraints the C++ type system imposes on raw opaque setter
arguments (fixed-size structs). -/
def opSized : SetterOp → Prop
  | .oOpaqueDate v => v.length = 4
  | .oBlobId v => v.length = 8
  | _ => True

/-- A STRING-typed variant of the example input parameter. -/
def exampleStringDescriptor : Descriptor :=
  { exampleDescriptor with adjustedType := .STRING }

/-- A statement whose single input parameter is the example STRING field. -/
def exampleStringStmt : Stmt :=
  { exampleStmt with
      inDescriptors := [exampleStringDescriptor]
      inMessage := [0, 0, 0, 0, 0, 0, 1, 0] }

theorem Buffer.size_setByte (buf : Buffer) (i v : Nat) :
    (buf.setByte i v).size = buf.size :=
  List.length_set buf i (v % 256)

theorem Buffer.size_write16 (buf : Buffer) (off v : Nat) :
    (buf.write16 off v).size = buf.size := by
  simp [Buffer.write16, Buffer.size_setByte]

theorem Buffer.byte_setByte_self (buf : Buffer) (i v : Nat) (h : i < buf.size) :
    (buf.setByte i v).byte i = v % 256 := by
  have h2 : i < List.length buf := h
  simp [Buffer.setByte, Buffer.byte, List.getD_eq_getElem?_getD, List.getElem?_set, h2]

theorem Buffer.byte_setByte_other (buf : Buffer) (i j v : Nat) (h : i ≠ j) :
    (buf.setByte i v).byte j = buf.byte j := by
  simp [Buffer.setByte, Buffer.byte, List.getD_eq_getElem?_getD, List.getElem?_set, h]

theorem Buffer.read16_write16_self (buf : Buffer) (off v : Nat)
    (h : off + 1 < buf.size) (hv : v < 65536) :
    (buf.write16 off v).read16 off = v := by
  have h0 : off < buf.size := by omega
  have h1 : off ≠ off + 1 := by omega
  have hs : off + 1 < (buf.setByte off (v % 256)).size := by
    rw [Buffer.size_setByte]; exact h
  rw [Buffer.write16, Buffer.read16,
    Buffer.byte_setByte_other _ _ _ _ (Ne.symm h1),
    Buffer.byte_setByte_self _ _ _ h0,
    Buffer.byte_setByte_self _ _ _ hs]
  have hd : v / 256 < 256 := by omega
  rw [Nat.mod_eq_of_lt hd]
  omega

theorem Buffer.read16_write16_other (buf : Buffer) (off v target : Nat)
    (hd : off + 1 < target ∨ target + 1 < off) :
    (buf.write16 off v).read16 target = buf.read16 target := by
  rw [Buffer.write16, Buffer.read16,
    Buffer.byte_setByte_other _ _ _ _ (by omega),
    Buffer.byte_setByte_other _ _ _ _ (by omega),
    Buffer.byte_setByte_other _ _ _ _ (by omega),
    Buffer.byte_setByte_other _ _ _ _ (by omega)]
  rfl

theorem size_writeOnes (offs : List Nat) (buf : Buffer) :
    (writeOnes offs buf).size = buf.size := by
  induction offs generalizing buf with
  | nil => rfl
  | cons o rest ih =>
    show (writeOnes rest (buf.write16 o FB_TRUE)).size = buf.size
    rw [ih, Buffer.size_write16]

theorem read16_writeOnes (offs : List Nat) (buf : Buffer) (target : Nat)
    (hlen : ∀ o ∈ offs, o + 1 < buf.size)
    (hcomp : ∀ o ∈ offs, o = target ∨ o + 1 < target ∨ target + 1 < o)
    (h0 : buf.read16 target = FB_TRUE ∨ target ∈ offs) :
    (writeOnes offs buf).read16 target = FB_TRUE := by
  induction offs generalizing buf with
  | nil =>
    rcases h0 with h0 | h0
    · exact h0
    · simp at h0
  | cons o rest ih =>
    show (writeOnes rest (buf.write16 o FB_TRUE)).read16 target = FB_TRUE
    have hsz : ∀ x ∈ rest, x + 1 < (buf.write16 o FB_TRUE).size := by
      intro x hx; rw [Buffer.size_write16]; exact hlen x (List.mem_cons_of_mem _ hx)
    by_cases he : o = target
    · subst he
      refine ih _ hsz (fun x hx => hcomp x (List.mem_cons_of_mem _ hx)) (Or.inl ?_)
      exact Buffer.read16_write16_self buf o FB_TRUE (hlen o (List.mem_cons_self _ _))
        (by norm_num [FB_TRUE])
    · rcases hcomp o (List.mem_cons_self _ _) with h | h
      · exact absurd h he
      · refine ih _ hsz (fun x hx => hcomp x (List.mem_cons_of_mem _ hx)) ?_
        rcases h0 with h0 | h0
        · exact Or.inl (by rw [Buffer.read16_write16_other _ _ _ _ h]; exact h0)
        · rcases List.mem_cons.mp h0 with h0 | h0
          · exact absurd h0.symm he
          · exact Or.inr h0

theorem Buffer.size_resize (buf : Buffer) (n : Nat) : (buf.resize n).size = n := by
  show List.length (List.take n buf ++ List.replicate (n - List.length buf) 0) = n
  rw [List.length_append, List.length_take, List.length_replicate]
  omega

theorem eraseOffsets_preDescriptor (f : MetaField) :
    eraseOffsets (preDescriptor f) = preDescriptor f := rfl

theorem eraseOffsets_withOffsets (d : Descriptor) (a b : Nat) :
    eraseOffsets { d with offset := a, nullOffset := b } = eraseOffsets d := rfl

theorem eraseOffsets_withAdjusted (f : MetaField) (t2 : SqlType)
    (h : rebuildRequest f.type = some t2) :
    eraseOffsets { preDescriptor f with adjustedType := t2 } = preDescriptor f := by
  have ht : normalizeType f.type = t2 := by simp [normalizeType, h]
  rw [← ht]
  rfl

theorem processLoop_types (fields : List (Nat × MetaField)) (descs : List Descriptor)
    (reqs : List (Nat × SqlType)) (buf : Buffer) :
    ((processLoop fields descs reqs buf).1).map eraseOffsets =
      descs.map eraseOffsets ++ fields.map (fun p => preDescriptor p.2) := by
  induction fields generalizing descs reqs buf with
  | nil => simp [processLoop]
  | cons p rest ih =>
    obtain ⟨i, f⟩ := p
    rw [processLoop]
    rcases hreq : rebuildRequest f.type with _ | t2
    · rcases hb : reqs.isEmpty with _ | _
      · simp only [hreq, hb, Bool.false_eq_true, if_false, ih, List.map_append,
          List.map_cons, List.map_nil, List.append_assoc, List.cons_append,
          List.nil_append, eraseOffsets_preDescriptor]
      · simp only [hreq, hb, if_true, ih, List.map_append, List.map_cons,
          List.map_nil, List.append_assoc, List.cons_append, List.nil_append,
          eraseOffsets_withOffsets, eraseOffsets_preDescriptor]
    · have hne : ((reqs ++ [(i, t2)]).isEmpty) = false := by
        simp [List.isEmpty_iff]
      simp only [hreq, hne, Bool.false_eq_true, if_false, ih, List.map_append,
        List.map_cons, List.map_nil, List.append_assoc, List.cons_append,
        List.nil_append, eraseOffsets_withAdjusted f t2 hreq]

theorem processLoop_reqs (fields : List (Nat × MetaField)) (descs : List Descriptor)
    (reqs : List (Nat × SqlType)) (buf : Buffer) :
    (processLoop fields descs reqs buf).2.1 =
      reqs ++ fields.filterMap
        (fun p => (rebuildRequest p.2.type).map (fun t => (p.1, t))) := by
  induction fields generalizing descs reqs buf with
  | nil => simp [processLoop]
  | cons p rest ih =>
    obtain ⟨i, f⟩ := p
    rw [processLoop]
    rcases hreq : rebuildRequest f.type with _ | t2
    · simp only [hreq]
      by_cases he : reqs.isEmpty
      · simp [he, ih, List.filterMap_cons, hreq]
      · simp [he, ih, List.filterMap_cons, hreq]
    · have hne : ((reqs ++ [(i, t2)]).isEmpty) = false := by
        simp [List.isEmpty_iff]
      simp [hreq, hne, ih, List.filterMap_cons]

theorem processLoop_all_plain (fields : List (Nat × MetaField))
    (descs : List Descriptor) (buf : Buffer)
    (h : ∀ p ∈ fields, rebuildRequest p.2.type = none) :
    processLoop fields descs [] buf =
      (descs ++ fields.map (fun p => fullDescriptor p.2), [],
        writeOnes (fields.map (fun p => p.2.nullOffset)) buf) := by
  induction fields generalizing descs buf with
  | nil => simp [processLoop, writeOnes]
  | cons p rest ih =>
    obtain ⟨i, f⟩ := p
    rw [processLoop]
    have hreq : rebuildRequest f.type = none := h (i, f) (List.mem_cons_self _ _)
    simp only [hreq, List.isEmpty_nil, if_true]
    rw [ih _ _ (fun q hq => h q (List.mem_cons_of_mem _ hq))]
    simp only [List.map_cons, List.append_assoc, List.cons_append, List.nil_append]
    rfl

theorem mem_fields_of_mem_enum {l : List MetaField} {p : Nat × MetaField}
    (h : p ∈ l.enumFrom 0) : p.2 ∈ l := by
  have hm := List.enumFrom_map_snd 0 l
  rw [← hm]
  exact List.mem_map_of_mem Prod.snd h

theorem getElem?_enumFrom_zero {l : List MetaField} {i : Nat} {f : MetaField}
    (h : l[i]? = some f) : (l.enumFrom 0)[i]? = some (i, f) := by
  obtain ⟨hlt, heq⟩ := List.getElem?_eq_some.mp h
  rw [List.getElem?_eq_getElem (by simpa [List.enumFrom_length] using hlt),
    List.getElem_enumFrom]
  simp [heq]

theorem nullOffset_mem_offsets {l : List MetaField} {f : MetaField} (h : f ∈ l) :
    f.nullOffset ∈ (l.enumFrom 0).map (fun p => p.2.nullOffset) := by
  have hm := List.enumFrom_map_snd 0 l
  rw [← hm] at h
  obtain ⟨p, hp, hpe⟩ := List.mem_map.mp h
  exact List.mem_map.mpr ⟨p, hp, by rw [hpe]⟩

/-- C7: for a transaction with a live handle, commitRetaining and
rollbackRetaining from ACTIVE leave the transaction unchanged (handle still
valid, state still ACTIVE) and are rejected from PREPARED, while commit and
rollback succeed from both ACTIVE and PREPARED, reach the corresponding
terminal state, and invalidate the handle. -/
theorem transaction_retaining_and_terminal_spec (t : Transaction)
    (hv : t.isValid = true) :
    (t.state = .ACTIVE →
      t.commitRetaining = .ok t ∧ t.rollbackRetaining = .ok t) ∧
    (t.state = .PREPARED →
      (∃ m, t.commitRetaining = .error (.fbCpp m)) ∧
      (∃ m, t.rollbackRetaining = .error (.fbCpp m))) ∧
    (t.state = .ACTIVE ∨ t.state = .PREPARED →
      t.commit = .ok { handleValid := false, state := .COMMITTED } ∧
      t.rollback = .ok { handleValid := false, state := .ROLLED_BACK }) := by
  refine ⟨?_, ?_, ?_⟩
  · intro hs
    constructor <;>
      simp [Transaction.commitRetaining, Transaction.rollbackRetaining, hv, hs]
  · intro hs
    refine ⟨⟨"assert(state == ACTIVE)", ?_⟩, ⟨"assert(state == ACTIVE)", ?_⟩⟩ <;>
      simp [Transaction.commitRetaining, Transaction.rollbackRetaining, hv, hs]
  · intro hs
    constructor <;> simp [Transaction.commit, Transaction.rollback, hv, hs]

/-- Witness for transaction_retaining_and_terminal_spec at a concrete active
transaction. -/
theorem transaction_retaining_and_terminal_spec_witness :
    let t : Transaction := { handleValid := true, state := .ACTIVE }
    t.commitRetaining = .ok t ∧
    t.commit = .ok { handleValid := false, state := .COMMITTED } := by
  refine ⟨((transaction_retaining_and_terminal_spec
      { handleValid := true, state := .ACTIVE } rfl).1 rfl).1, ?_⟩
  exact (((transaction_retaining_and_terminal_spec
      { handleValid := true, state := .ACTIVE } rfl).2.2 (Or.inl rfl)).1)

/-- C8: destroying a transaction whose handle is live and whose state is
ACTIVE performs the implicit rollback and swallows any failure of it (the
destructor never propagates), while destroying one left in PREPARED state
fires the fatal debug assertion and never rolls it back. -/
theorem transaction_destroy_spec (t : Transaction) (rollbackThrows : Bool)
    (hv : t.isValid = true) :
    (t.state = .ACTIVE →
      (t.destroy rollbackThrows).rolledBack = true ∧
      (t.destroy rollbackThrows).assertionFailed = false ∧
      ((t.destroy rollbackThrows).exceptionSwallowed = true ↔ rollbackThrows = true)) ∧
    (t.state = .PREPARED →
      (t.destroy rollbackThrows).assertionFailed = true ∧
      (t.destroy rollbackThrows).rolledBack = false) := by
  constructor
  · intro hs
    simp [Transaction.destroy, hv, hs]
  · intro hs
    simp [Transaction.destroy, hv, hs]

/-- Witness for transaction_destroy_spec at concrete transactions: an active
one is rolled back even when the rollback throws, a prepared one trips the
assertion. -/
theorem transaction_destroy_spec_witness :
    (Transaction.destroy { handleValid := true, state := .ACTIVE } true).rolledBack = true ∧
    (Transaction.destroy { handleValid := true, state := .PREPARED } false).assertionFailed
      = true := by
  exact ⟨((transaction_destroy_spec { handleValid := true, state := .ACTIVE } true rfl).1
      rfl).1,
    ((transaction_destroy_spec { handleValid := true, state := .PREPARED } false rfl).2
      rfl).1⟩

/-- C6: statement kinds START_TRANSACTION, COMMIT and ROLLBACK fail the
constructor check with an `FbCppException`, GET_SEGMENT and PUT_SEGMENT are
rejected as unsupported, and every other statement kind passes the check. -/
theorem checkStatementType_spec :
    (∀ t : StatementType,
      t = .START_TRANSACTION ∨ t = .COMMIT ∨ t = .ROLLBACK →
        ∃ msg, checkStatementType t = .error (.fbCpp msg)) ∧
    (∀ t : StatementType,
      t = .GET_SEGMENT ∨ t = .PUT_SEGMENT →
        checkStatementType t =
          .error (.fbCpp "Unsupported statement type: BLOB segment operations")) ∧
    (∀ t : StatementType,
      t ≠ .START_TRANSACTION → t ≠ .COMMIT → t ≠ .ROLLBACK →
      t ≠ .GET_SEGMENT → t ≠ .PUT_SEGMENT →
        checkStatementType t = .ok ()) := by
  refine ⟨?_, ?_, ?_⟩
  · rintro t (rfl | rfl | rfl) <;> exact ⟨_, rfl⟩
  · rintro t (rfl | rfl) <;> rfl
  · rintro t h1 h2 h3 h4 h5
    cases t <;> first | rfl | simp_all

theorem processLoop_length (fields : List (Nat × MetaField))
    (descs : List Descriptor) (reqs : List (Nat × SqlType)) (buf : Buffer) :
    (processLoop fields descs reqs buf).1.length = descs.length + fields.length := by
  have h := congrArg List.length (processLoop_types fields descs reqs buf)
  simpa using h

theorem mem_of_some_getElem? {α : Type} {l : List α} {i : Nat} {a : α}
    (h : l[i]? = some a) : a ∈ l := by
  obtain ⟨hlt, he⟩ := List.getElem?_eq_some.mp h
  exact he ▸ List.getElem_mem hlt

/-- C2 main: the layout deriver copies the wire type, normalizes the adjusted
type, takes offsets from the revised metadata exactly when a rebuild was
requested, and pre-sets every null flag in the allocated buffer. -/
theorem processMetadata_spec (md : MessageMetadata)
    (rebuilt : List (Nat × SqlType) → MessageMetadata)
    (hcount : (rebuilt (requestsOf md)).fields.length = md.fields.length)
    (hwf : nullSlotsWellFormed (layoutSource md rebuilt)) :
    (processMetadata md rebuilt).2.2 = layoutSource md rebuilt ∧
    (processMetadata md rebuilt).1.length = md.fields.length ∧
    (processMetadata md rebuilt).2.1.size = (layoutSource md rebuilt).messageLength ∧
    (requestsOf md = [] ↔ ∀ f ∈ md.fields, rebuildRequest f.type = none) ∧
    (∀ (i : Nat) (d : Descriptor) (f g : MetaField),
      (processMetadata md rebuilt).1[i]? = some d →
      md.fields[i]? = some f →
      (layoutSource md rebuilt).fields[i]? = some g →
      d.originalType = f.type ∧ d.adjustedType = normalizeType f.type ∧
      d.scale = f.scale ∧ d.length = f.length ∧ d.isNullable = f.isNullable ∧
      d.offset = g.offset ∧ d.nullOffset = g.nullOffset ∧
      (processMetadata md rebuilt).2.1.read16 d.nullOffset = FB_TRUE) := by
  have hreqs2 : (processLoop (md.fields.enumFrom 0) [] []
      (Buffer.zeros md.messageLength)).2.1 = requestsOf md := by
    rw [processLoop_reqs, List.nil_append, requestsOf]
  have hiff : (requestsOf md = [] ↔ ∀ f ∈ md.fields, rebuildRequest f.type = none) := by
    rw [requestsOf, List.filterMap_eq_nil_iff]
    constructor
    · intro h f hf
      have hm : f ∈ (md.fields.enumFrom 0).map Prod.snd := by
        rw [List.enumFrom_map_snd]; exact hf
      obtain ⟨p, hp, hpe⟩ := List.mem_map.mp hm
      have h2 := h p hp
      rcases hr : rebuildRequest p.2.type with _ | t
      · rw [← hpe]; exact hr
      · rw [hr] at h2; simp at h2
    · intro h p hp
      rw [h p.2 (mem_fields_of_mem_enum hp)]; rfl
  by_cases hreq0 : requestsOf md = []
  · -- no field requests a rebuild
    have hall : ∀ p ∈ md.fields.enumFrom 0, rebuildRequest p.2.type = none := by
      intro p hp
      exact (hiff.mp hreq0) p.2 (mem_fields_of_mem_enum hp)
    have hplain := processLoop_all_plain (md.fields.enumFrom 0) []
      (Buffer.zeros md.messageLength) hall
    have hls : layoutSource md rebuilt = md := by rw [layoutSource, if_pos hreq0]
    have hPM : processMetadata md rebuilt =
        ((md.fields.enumFrom 0).map (fun p => fullDescriptor p.2),
         writeOnes ((md.fields.enumFrom 0).map (fun p => p.2.nullOffset))
           (Buffer.zeros md.messageLength), md) := by
      unfold processMetadata
      rw [hplain]
      simp
    rw [hls] at hwf
    rw [hPM, hls]
    refine ⟨rfl, ?_, ?_, hiff, ?_⟩
    · simp [List.enumFrom_length]
    · rw [size_writeOnes]
      simp [Buffer.zeros, Buffer.size, List.length_replicate]
    · intro i d f g hd hf hg
      have hgf : g = f := by rw [hf] at hg; exact (Option.some.inj hg).symm
      have hEi : (md.fields.enumFrom 0)[i]? = some (i, f) := getElem?_enumFrom_zero hf
      have hmap : ((md.fields.enumFrom 0).map (fun p => fullDescriptor p.2))[i]? =
          some (fullDescriptor f) := by
        rw [List.getElem?_map, hEi]; rfl
      have hdv : d = fullDescriptor f := by
        rw [hmap] at hd; exact (Option.some.inj hd).symm
      have hfm : f ∈ md.fields := mem_of_some_getElem? hf
      refine ⟨by rw [hdv]; rfl, by rw [hdv]; rfl, by rw [hdv]; rfl,
        by rw [hdv]; rfl, by rw [hdv]; rfl,
        by rw [hdv, hgf]; rfl, by rw [hdv, hgf]; rfl, ?_⟩
      rw [hdv]
      apply read16_writeOnes
      · intro o ho
        obtain ⟨p, hp, hpe⟩ := List.mem_map.mp ho
        have hpm : p.2 ∈ md.fields := mem_fields_of_mem_enum hp
        have hb := hwf.1 p.2 hpm
        rw [← hpe]
        simpa [Buffer.zeros, Buffer.size, List.length_replicate] using hb
      · intro o ho
        obtain ⟨p, hp, hpe⟩ := List.mem_map.mp ho
        have hpm : p.2 ∈ md.fields := mem_fields_of_mem_enum hp
        have hc := hwf.2 p.2 hpm f hfm
        rw [← hpe]
        exact hc
      · exact Or.inr (nullOffset_mem_offsets hfm)
  · -- at least one field requests a rebuild
    have hne : ((processLoop (md.fields.enumFrom 0) [] []
        (Buffer.zeros md.messageLength)).2.1).isEmpty = false := by
      rw [hreqs2]
      simpa [List.isEmpty_iff] using hreq0
    have hls : layoutSource md rebuilt = rebuilt (requestsOf md) := by
      rw [layoutSource, if_neg hreq0]
    have hPM : processMetadata md rebuilt =
        (((processLoop (md.fields.enumFrom 0) [] []
            (Buffer.zeros md.messageLength)).1.zip
              (rebuilt (requestsOf md)).fields).map
          (fun p => { p.1 with offset := p.2.offset, nullOffset := p.2.nullOffset }),
         writeOnes ((rebuilt (requestsOf md)).fields.map (fun f => f.nullOffset))
           ((processLoop (md.fields.enumFrom 0) [] []
             (Buffer.zeros md.messageLength)).2.2.resize
               (rebuilt (requestsOf md)).messageLength),
         rebuilt (requestsOf md)) := by
      have hne2 : (requestsOf md).isEmpty = false := by
        simpa [List.isEmpty_iff] using hreq0
      unfold processMetadata
      simp only [hreqs2, hne2, Bool.false_eq_true, if_false]
      rw [writeOnes, List.foldl_map]
    rw [hls] at hwf
    rw [hPM, hls]
    have hlooplen : (processLoop (md.fields.enumFrom 0) [] []
        (Buffer.zeros md.messageLength)).1.length = md.fields.length := by
      rw [processLoop_length]
      simp [List.enumFrom_length]
    refine ⟨rfl, ?_, ?_, hiff, ?_⟩
    · rw [List.length_map, List.length_zip, hlooplen, hcount]
      simp
    · rw [size_writeOnes, Buffer.size_resize]
    · intro i d f g hd hf hg
      have hgm : g ∈ (rebuilt (requestsOf md)).fields := mem_of_some_getElem? hg
      obtain ⟨hflt, hfe⟩ := List.getElem?_eq_some.mp hf
      obtain ⟨hglt, hge⟩ := List.getElem?_eq_some.mp hg
      have hilt : i < (processLoop (md.fields.enumFrom 0) [] []
          (Buffer.zeros md.messageLength)).1.length := by rw [hlooplen]; exact hflt
      have hziplt : i < ((processLoop (md.fields.enumFrom 0) [] []
          (Buffer.zeros md.messageLength)).1.zip
            (rebuilt (requestsOf md)).fields).length := by
        rw [List.length_zip, hlooplen, hcount]
        simpa using hflt
      have hdv : d = { (processLoop (md.fields.enumFrom 0) [] []
          (Buffer.zeros md.messageLength)).1[i] with
            offset := g.offset, nullOffset := g.nullOffset } := by
        rw [List.getElem?_eq_getElem (by simpa using hziplt)] at hd
        have := (Option.some.inj hd).symm
        rw [this, List.getElem_map, List.getElem_zip]
        have hg2 : (rebuilt (requestsOf md)).fields[i] = g := hge
        rw [hg2]
      have htypes := processLoop_types (md.fields.enumFrom 0) [] []
        (Buffer.zeros md.messageLength)
      have htyi : eraseOffsets ((processLoop (md.fields.enumFrom 0) [] []
          (Buffer.zeros md.messageLength)).1[i]) = preDescriptor f := by
        have h1 := congrArg (fun l => l[i]?) htypes
        simp only [List.map_nil, List.getElem?_map, List.nil_append] at h1
        rw [List.getElem?_eq_getElem hilt] at h1
        rw [getElem?_enumFrom_zero hf] at h1
        simpa using h1
      refine ⟨?_, ?_, ?_, ?_, ?_, ?_, ?_, ?_⟩
      · rw [hdv]; exact congrArg Descriptor.originalType htyi
      · rw [hdv]; exact congrArg Descriptor.adjustedType htyi
      · rw [hdv]; exact congrArg Descriptor.scale htyi
      · rw [hdv]; exact congrArg Descriptor.length htyi
      · rw [hdv]; exact congrArg Descriptor.isNullable htyi
      · rw [hdv]
      · rw [hdv]
      · rw [hdv]
        apply read16_writeOnes
        · intro o ho
          obtain ⟨p, hp, hpe⟩ := List.mem_map.mp ho
          have hb := hwf.1 p hp
          rw [← hpe, Buffer.size_resize]
          exact hb
        · intro o ho
          obtain ⟨p, hp, hpe⟩ := List.mem_map.mp ho
          have hc := hwf.2 p hp g hgm
          rw [← hpe]
          exact hc
        · exact Or.inr (List.mem_map_of_mem _ hgm)

/-- Witness for processMetadata_spec at the concrete example metadata. -/
theorem processMetadata_spec_witness :
    (exampleRebuilt (requestsOf exampleMetadata)).fields.length =
        exampleMetadata.fields.length ∧
    nullSlotsWellFormed (layoutSource exampleMetadata exampleRebuilt) ∧
    (processMetadata exampleMetadata exampleRebuilt).2.2 =
      layoutSource exampleMetadata exampleRebuilt :=
  ⟨by decide, by decide,
    (processMetadata_spec exampleMetadata exampleRebuilt (by decide) (by decide)).1⟩

theorem find?_contains_single (A : VarAlt) (alts : List VarAlt) :
    [A].find? (fun a => alts.contains a) =
      if alts.contains A then some A else none := by
  cases h : alts.contains A
  · rw [List.find?_cons_of_neg _ (by simp only [h]; decide)]
    simp
  · rw [List.find?_cons_of_pos _ (by simp only [h])]
    simp

theorem find?_contains_pair (A B : VarAlt) (alts : List VarAlt) :
    [A, B].find? (fun a => alts.contains a) =
      if alts.contains A then some A
      else if alts.contains B then some B else none := by
  cases h1 : alts.contains A
  · rw [List.find?_cons_of_neg _ (by simp only [h1]; decide)]
    simp only [Bool.false_eq_true, if_false]
    exact find?_contains_single B alts
  · rw [List.find?_cons_of_pos _ (by simp only [h1])]
    simp

theorem find?_append_last (prefs : List VarAlt) (last : VarAlt)
    (alts : List VarAlt) :
    (prefs ++ [last]).find? (fun a => alts.contains a) =
      (prefs.find? (fun a => alts.contains a)).or
        (if alts.contains last then some last else none) := by
  induction prefs with
  | nil =>
    rw [List.nil_append, List.find?_nil, find?_contains_single]
    rfl
  | cons p rest ih =>
    cases h : alts.contains p
    · rw [List.cons_append, List.find?_cons_of_neg _ (by simp only [h]; decide),
        List.find?_cons_of_neg _ (by simp only [h]; decide), ih]
    · rw [List.cons_append, List.find?_cons_of_pos _ (by simp only [h]),
        List.find?_cons_of_pos _ (by simp only [h])]
      rfl

/-- The exact-match pass of the source equals the specification-side
preference-list formulation. -/
theorem exactVariantMatch_eq_spec (alts : List VarAlt) (d : Descriptor) :
    exactVariantMatch alts d = specExactMatch d alts := by
  rcases hty : d.adjustedType with _ | _ | _ | _ | _ | _ | _ | _ | _ | _ | _
    | _ | _ | _ | _ | _ | _ | _ | _ <;>
    simp only [exactVariantMatch, specExactMatch, exactPriority, hty, firstMem]
  · rfl
  · rw [find?_contains_single]
  · rfl
  · rfl
  · rw [find?_contains_single]
  case INT16 =>
    cases hs : (d.scale != 0)
    · simp [find?_contains_single, Option.orElse]
    · simp only [if_true, if_false, hs]
      rw [show [VarAlt.aScaledInt16, .aScaledInt32, .aScaledInt64,
          .aScaledBoostInt128, .aInt16] =
        [VarAlt.aScaledInt16, .aScaledInt32, .aScaledInt64,
          .aScaledBoostInt128] ++ [VarAlt.aInt16] from rfl]
      rw [find?_append_last]
  case INT32 =>
    cases hs : (d.scale != 0)
    · simp [find?_contains_single, Option.orElse]
    · simp only [if_true, if_false, hs]
      rw [show [VarAlt.aScaledInt32, .aScaledInt64, .aScaledBoostInt128,
          .aInt32] =
        [VarAlt.aScaledInt32, .aScaledInt64, .aScaledBoostInt128] ++
          [VarAlt.aInt32] from rfl]
      rw [find?_append_last]
  case INT64 =>
    cases hs : (d.scale != 0)
    · simp [find?_contains_single, Option.orElse]
    · simp only [if_true, if_false, hs]
      rw [show [VarAlt.aScaledInt64, .aScaledBoostInt128, .aInt64] =
        [VarAlt.aScaledInt64, .aScaledBoostInt128] ++ [VarAlt.aInt64] from rfl]
      rw [find?_append_last]
  case INT128 =>
    cases hs : (d.scale != 0) <;>
      simp only [hs, Bool.false_eq_true, if_false, if_true] <;>
      rw [find?_contains_pair]
  case FLOAT => rw [find?_contains_single]
  case DOUBLE => rw [find?_contains_single]
  case DECFLOAT16 => rw [find?_contains_pair]
  case DECFLOAT34 => rw [find?_contains_pair]
  case DATE => rw [find?_contains_pair]
  case TIME => rw [find?_contains_pair]
  case TIMESTAMP => rw [find?_contains_pair]
  case TIME_TZ => rw [find?_contains_pair]
  case TIMESTAMP_TZ => rw [find?_contains_pair]
  case BLOB => rw [find?_contains_single]

/-- The declared-order fallback attempts exactly the first alternative that
is neither monostate nor opaque, and propagates its conversion outcome. -/
theorem tryVariantAlternatives_eq (conv : VarAlt → Except FbError Unit)
    (alts : List VarAlt) :
    tryVariantAlternatives conv alts =
      match alts.find? (fun a => !(a == VarAlt.aMonostate) && !isOpaqueAlt a) with
      | some a => (conv a).map (fun _ => a)
      | none =>
          .error (.fbCpp "Cannot convert SQL type to any variant alternative at index") := by
  induction alts with
  | nil => rfl
  | cons a rest ih =>
    by_cases hm : a = VarAlt.aMonostate
    · subst hm
      have hP : (!(VarAlt.aMonostate == VarAlt.aMonostate) &&
          !isOpaqueAlt VarAlt.aMonostate) = false := by decide
      simp only [tryVariantAlternatives, if_pos rfl, List.find?_cons, hP]
      rw [ih]
      simp
    · cases ho : isOpaqueAlt a
      · have hP2 : (!(a == VarAlt.aMonostate) && !false) = true := by
          simp [hm]
        simp only [tryVariantAlternatives, List.find?_cons, if_neg hm, ho,
          Bool.false_eq_true, if_false, hP2]
      · have hP2 : (!(a == VarAlt.aMonostate) && !true) = false := by
          simp
        simp only [tryVariantAlternatives, List.find?_cons, if_neg hm, ho,
          if_true, hP2]
        rw [ih]

/-- C1 amended: the variant read of the source equals the amended
resolution: null handling and exact-match preferences exactly as claimed,
but the fallback attempts only the first non-null non-opaque alternative in
declared order and propagates its conversion outcome. -/
theorem getVariant_matches_amended (alts : List VarAlt) (st : Stmt)
    (index : Nat) (conv : VarAlt → Except FbError Unit) (d : Descriptor)
    (n : Bool) (hd : st.getOutDescriptor index = .ok d)
    (hn : st.isNull index = .ok n) :
    getVariant alts st index conv = amendedResolve alts d n conv := by
  have hmain : getVariant alts st index conv =
      (if n then
        (if alts.contains .aMonostate then Except.ok .aMonostate
         else Except.error
           (FbError.fbCpp
             "NULL value encountered but variant does not contain std::monostate at index"))
      else getVariantValue alts d conv) := by
    simp only [getVariant, hd, hn]
    rfl
  rw [hmain]
  cases n
  · simp only [if_false, Bool.false_eq_true]
    rw [getVariantValue.eq_def, amendedResolve]
    simp only [if_false, Bool.false_eq_true, exactVariantMatch_eq_spec,
      tryVariantAlternatives_eq]
  · simp only [if_true, amendedResolve]

/-- Witness for getVariant_matches_amended at a concrete scaled INT32 column
read into a variant holding monostate and a plain int32. -/
theorem getVariant_matches_amended_witness :
    exampleStmt.getOutDescriptor 0 = .ok exampleDescriptor ∧
    exampleStmt.isNull 0 = .ok false ∧
    getVariant [VarAlt.aMonostate, VarAlt.aInt32] exampleStmt 0
        (fun _ => .ok ()) =
      amendedResolve [VarAlt.aMonostate, VarAlt.aInt32] exampleDescriptor false
        (fun _ => .ok ()) :=
  ⟨rfl, rfl,
    getVariant_matches_amended [VarAlt.aMonostate, VarAlt.aInt32] exampleStmt 0
      (fun _ => .ok ()) exampleDescriptor false rfl rfl⟩

/-- C1 counterexample: for the variant with alternatives Date then string
read against a non-null plain INT32 column, the claimed resolution returns
the string alternative (the first whose conversion succeeds), but the code
attempts the Date alternative first and propagates its conversion error
without trying the string alternative. -/
theorem variant_claim_counterexample :
    claimResolve [VarAlt.aDate, VarAlt.aString] ceDescriptor false ceConv =
      .ok .aString ∧
    getVariant [VarAlt.aDate, VarAlt.aString] ceStmt 0 ceConv =
      .error (.invalidType "Date" .INT32) ∧
    getVariant [VarAlt.aDate, VarAlt.aString] ceStmt 0 ceConv ≠
      claimResolve [VarAlt.aDate, VarAlt.aString] ceDescriptor false ceConv := by
  have h1 : claimResolve [VarAlt.aDate, VarAlt.aString] ceDescriptor false ceConv =
      .ok .aString := rfl
  have h2 : getVariant [VarAlt.aDate, VarAlt.aString] ceStmt 0 ceConv =
      .error (.invalidType "Date" .INT32) := rfl
  refine ⟨h1, h2, ?_⟩
  rw [h1, h2]
  intro h
  exact Except.noConfusion h

theorem bind_ok_reduce {α β : Type} (a : α) (f : α → Except FbError β) :
    (Except.ok a >>= f : Except FbError β) = f a := rfl

theorem bind_pure_unit {β : Type} (x : Except FbError β) :
    (do (pure PUnit.unit : Except FbError PUnit); x) = x := rfl

theorem pure_eq_ok {β : Type} (a : β) :
    (pure a : Except FbError β) = Except.ok a := rfl

theorem getBool_null (st : Stmt) (index : Nat) (d : Descriptor)
    (hd : st.getOutDescriptor index = .ok d)
    (hb : (st.outMessage.read16 d.nullOffset != FB_FALSE) = true) :
    st.getBool index = .ok none := by
  simp only [Stmt.getBool, hd, bind_ok_reduce, hb]
  rfl

theorem getIntColumn_null (env : ConvEnv) (st : Stmt) (index : Nat)
    (toScale0 : Option Int) (bits : Nat) (typeName : String) (d : Descriptor)
    (hd : st.getOutDescriptor index = .ok d)
    (hb : (st.outMessage.read16 d.nullOffset != FB_FALSE) = true) :
    getIntColumn env st index toScale0 bits typeName = .ok none := by
  simp only [getIntColumn, hd, bind_ok_reduce, hb]
  rfl

theorem getOpaque_null (st : Stmt) (index : Nat) (t : SqlType)
    (typeName : String) (d : Descriptor)
    (hd : st.getOutDescriptor index = .ok d)
    (hb : (st.outMessage.read16 d.nullOffset != FB_FALSE) = true) :
    getOpaque st index t typeName = .ok none := by
  simp only [getOpaque, hd, bind_ok_reduce, hb]
  rfl

theorem getString_null (env : ConvEnv) (st : Stmt) (index : Nat)
    (d : Descriptor) (hd : st.getOutDescriptor index = .ok d)
    (hb : (st.outMessage.read16 d.nullOffset != FB_FALSE) = true) :
    getString env st index = .ok none := by
  simp only [getString, hd, bind_ok_reduce, hb]
  rfl

theorem getBool_some (st : Stmt) (index : Nat) (d : Descriptor)
    (hd : st.getOutDescriptor index = .ok d)
    (hb : (st.outMessage.read16 d.nullOffset != FB_FALSE) = false) :
    ∀ r, st.getBool index = .ok r → r.isSome := by
  intro r hr
  simp only [Stmt.getBool, hd, bind_ok_reduce, hb, Bool.false_eq_true,
    if_false, bind_pure_unit, pure_eq_ok] at hr
  rcases hty : d.adjustedType with _ | _ | _ | _ | _ | _ | _ | _ | _ | _ | _
    | _ | _ | _ | _ | _ | _ | _ | _ <;> rw [hty] at hr <;>
    first
      | (cases hr; rfl)
      | exact Except.noConfusion hr

theorem bind_error_reduce {α β : Type} (e : FbError)
    (f : α → Except FbError β) :
    ((Except.error e : Except FbError α) >>= f : Except FbError β) =
      .error e := rfl

theorem except_map_eq_ok {α β : Type} (g : α → β) (e : Except FbError α)
    (r : β) (h : e.map g = .ok r) : ∃ o, e = .ok o ∧ r = g o := by
  cases e with
  | error e2 => exact Except.noConfusion h
  | ok o => exact ⟨o, rfl, (Except.ok.inj h).symm⟩

theorem getIntColumn_some (env : ConvEnv) (st : Stmt) (index : Nat)
    (toScale0 : Option Int) (bits : Nat) (typeName : String) (d : Descriptor)
    (hd : st.getOutDescriptor index = .ok d)
    (hb : (st.outMessage.read16 d.nullOffset != FB_FALSE) = false) :
    ∀ r, getIntColumn env st index toScale0 bits typeName = .ok r →
      r.isSome := by
  intro r hr
  simp only [getIntColumn, hd, bind_ok_reduce, hb, Bool.false_eq_true,
    if_false, bind_pure_unit, pure_eq_ok] at hr
  cases hc : convertToScale d toScale0 typeName with
  | error e => rw [hc, bind_error_reduce] at hr; exact Except.noConfusion hr
  | ok ts =>
    rw [hc, bind_ok_reduce] at hr
    revert hr
    cases hs : readNumSource st.outMessage d with
    | none => intro hr; exact Except.noConfusion hr
    | some src =>
      intro hr
      replace hr : (numberToNumberInt env src ts bits >>= fun v =>
          Except.ok (some v)) = Except.ok r := hr
      cases hv : numberToNumberInt env src ts bits with
      | error e =>
        rw [hv, bind_error_reduce] at hr
        exact Except.noConfusion hr
      | ok v =>
        rw [hv, bind_ok_reduce] at hr
        cases hr
        rfl

theorem getOpaque_some (st : Stmt) (index : Nat) (t : SqlType)
    (typeName : String) (d : Descriptor)
    (hd : st.getOutDescriptor index = .ok d)
    (hb : (st.outMessage.read16 d.nullOffset != FB_FALSE) = false) :
    ∀ r, getOpaque st index t typeName = .ok r → r.isSome := by
  intro r hr
  simp only [getOpaque, hd, bind_ok_reduce, hb, Bool.false_eq_true, if_false,
    bind_pure_unit, pure_eq_ok] at hr
  by_cases ht : d.adjustedType = t
  · rw [if_pos ht] at hr
    cases hr
    rfl
  · rw [if_neg ht] at hr
    exact Except.noConfusion hr

theorem getString_some (env : ConvEnv) (st : Stmt) (index : Nat)
    (d : Descriptor) (hd : st.getOutDescriptor index = .ok d)
    (hb : (st.outMessage.read16 d.nullOffset != FB_FALSE) = false) :
    ∀ r, getString env st index = .ok r → r.isSome := by
  intro r hr
  simp only [getString, hd, bind_ok_reduce, hb, Bool.false_eq_true, if_false,
    bind_pure_unit, pure_eq_ok] at hr
  rcases hty : d.adjustedType with _ | _ | _ | _ | _ | _ | _ | _ | _ | _ | _
    | _ | _ | _ | _ | _ | _ | _ | _ <;> rw [hty] at hr <;>
    first
      | (cases hr; rfl)
      | exact Except.noConfusion hr

theorem getScaledInt_null (env : ConvEnv) (st : Stmt) (index : Nat)
    (bits : Nat) (typeName : String) (d : Descriptor)
    (hd : st.getOutDescriptor index = .ok d)
    (hb : (st.outMessage.read16 d.nullOffset != FB_FALSE) = true) :
    (do
      let d2 ← st.getOutDescriptor index
      match ← getIntColumn env st index none bits typeName with
      | none => return none
      | some v => return some (v, d2.scale)) =
      (.ok none : Except FbError (Option (Int × Int))) := by
  rw [hd, bind_ok_reduce,
    getIntColumn_null env st index none bits typeName d hd hb]
  rfl

theorem getScaledInt_some (env : ConvEnv) (st : Stmt) (index : Nat)
    (bits : Nat) (typeName : String) (d : Descriptor)
    (hd : st.getOutDescriptor index = .ok d)
    (hb : (st.outMessage.read16 d.nullOffset != FB_FALSE) = false) :
    ∀ r, (do
      let d2 ← st.getOutDescriptor index
      match ← getIntColumn env st index none bits typeName with
      | none => return none
      | some v => return some (v, d2.scale)) =
        (.ok r : Except FbError (Option (Int × Int))) → r.isSome := by
  intro r hr
  rw [hd, bind_ok_reduce] at hr
  cases hg : getIntColumn env st index none bits typeName with
  | error e => rw [hg, bind_error_reduce] at hr; exact Except.noConfusion hr
  | ok o =>
    cases o with
    | none =>
      have := getIntColumn_some env st index none bits typeName d hd hb none hg
      simp at this
    | some v =>
      rw [hg, bind_ok_reduce] at hr
      cases hr
      rfl

theorem getScaledOpaque_null (st : Stmt) (index : Nat) (d : Descriptor)
    (hd : st.getOutDescriptor index = .ok d)
    (hb : (st.outMessage.read16 d.nullOffset != FB_FALSE) = true) :
    getScaledOpaqueInt128 st index = .ok none := by
  rw [getScaledOpaqueInt128, hd, bind_ok_reduce,
    getOpaque_null st index .INT128 "ScaledOpaqueInt128" d hd hb]
  rfl

theorem getScaledOpaque_some (st : Stmt) (index : Nat) (d : Descriptor)
    (hd : st.getOutDescriptor index = .ok d)
    (hb : (st.outMessage.read16 d.nullOffset != FB_FALSE) = false) :
    ∀ r, getScaledOpaqueInt128 st index = .ok r → r.isSome := by
  intro r hr
  rw [getScaledOpaqueInt128, hd, bind_ok_reduce] at hr
  revert hr
  cases hg : getOpaque st index .INT128 "ScaledOpaqueInt128" with
  | error e => intro hr; exact Except.noConfusion hr
  | ok o =>
    cases o with
    | none =>
      intro hr
      have := getOpaque_some st index .INT128 "ScaledOpaqueInt128" d hd hb none hg
      simp at this
    | some bytes =>
      intro hr
      cases hr
      rfl

/-- C3: every typed getter reads the null flag before dispatching on the
adjusted type, so a set null flag makes every getter return absent rather
than a value or a type error; `isNull` agrees with every getter; and
`setNull` is what sets the flag on the parameter side. -/
theorem getters_null_contract (env : ConvEnv) (st : Stmt) (index : Nat)
    (d : Descriptor) (hd : st.getOutDescriptor index = .ok d) :
    (st.isNull index = .ok (st.outMessage.read16 d.nullOffset != FB_FALSE)) ∧
    (st.outMessage.read16 d.nullOffset ≠ FB_FALSE →
      st.isNull index = .ok true ∧
      ∀ k, runGetter env k st index = .ok none) ∧
    (st.outMessage.read16 d.nullOffset = FB_FALSE →
      st.isNull index = .ok false ∧
      ∀ k r, runGetter env k st index = .ok r → r.isSome) ∧
    (∀ d2 st2, st.getInDescriptor index = .ok d2 →
      st.setNull index = .ok st2 → d2.nullOffset + 1 < st.inMessage.size →
      st2.inMessage.read16 d2.nullOffset = FB_TRUE) := by
  have hisNull : st.isNull index =
      .ok (st.outMessage.read16 d.nullOffset != FB_FALSE) := by
    rw [Stmt.isNull, hd, bind_ok_reduce]
    rfl
  refine ⟨hisNull, ?_, ?_, ?_⟩
  · intro hP
    have hb : (st.outMessage.read16 d.nullOffset != FB_FALSE) = true :=
      bne_iff_ne.mpr hP
    refine ⟨by rw [hisNull, hb], ?_⟩
    intro k
    have h16 : getScaledInt16 env st index = Except.ok none :=
      getScaledInt_null env st index 16 "ScaledInt16" d hd hb
    have h32 : getScaledInt32 env st index = Except.ok none :=
      getScaledInt_null env st index 32 "ScaledInt32" d hd hb
    have h64 : getScaledInt64 env st index = Except.ok none :=
      getScaledInt_null env st index 64 "ScaledInt64" d hd hb
    cases k <;>
      simp only [runGetter, getInt16, getInt32, getInt64, h16, h32, h64,
        getBool_null st index d hd hb,
        getIntColumn_null env st index (some 0) 16 "std::int16_t" d hd hb,
        getIntColumn_null env st index (some 0) 32 "std::int32_t" d hd hb,
        getIntColumn_null env st index (some 0) 64 "std::int64_t" d hd hb,
        getScaledOpaque_null st index d hd hb,
        getOpaque_null st index .DECFLOAT16 "OpaqueDecFloat16" d hd hb,
        getOpaque_null st index .DECFLOAT34 "OpaqueDecFloat34" d hd hb,
        getOpaque_null st index .DATE "OpaqueDate" d hd hb,
        getOpaque_null st index .TIME "OpaqueTime" d hd hb,
        getOpaque_null st index .TIMESTAMP "OpaqueTimestamp" d hd hb,
        getOpaque_null st index .TIME_TZ "OpaqueTimeTz" d hd hb,
        getOpaque_null st index .TIMESTAMP_TZ "OpaqueTimestampTz" d hd hb,
        getOpaque_null st index .BLOB "BlobId" d hd hb,
        getString_null env st index d hd hb] <;>
      rfl
  · intro hP
    have hb : (st.outMessage.read16 d.nullOffset != FB_FALSE) = false := by
      simp [hP]
    refine ⟨by rw [hisNull, hb], ?_⟩
    intro k r hr
    cases k <;>
      obtain ⟨o, ho, rfl⟩ := except_map_eq_ok _ _ _ hr <;>
      first
        | (have hsome := getBool_some st index d hd hb o ho
           cases o <;> simp_all)
        | (have hsome := getIntColumn_some env st index (some 0) 16 "std::int16_t"
             d hd hb o (by rw [← getInt16]; exact ho)
           cases o <;> simp_all)
        | (have hsome := getIntColumn_some env st index (some 0) 32 "std::int32_t"
             d hd hb o (by rw [← getInt32]; exact ho)
           cases o <;> simp_all)
        | (have hsome := getIntColumn_some env st index (some 0) 64 "std::int64_t"
             d hd hb o (by rw [← getInt64]; exact ho)
           cases o <;> simp_all)
        | (have hsome := getScaledInt_some env st index 16 "ScaledInt16" d hd hb o ho
           cases o <;> simp_all)
        | (have hsome := getScaledInt_some env st index 32 "ScaledInt32" d hd hb o ho
           cases o <;> simp_all)
        | (have hsome := getScaledInt_some env st index 64 "ScaledInt64" d hd hb o ho
           cases o <;> simp_all)
        | (have hsome := getScaledOpaque_some st index d hd hb o ho
           cases o <;> simp_all)
        | (have hsome := getOpaque_some st index .DECFLOAT16 "OpaqueDecFloat16" d hd hb o ho
           cases o <;> simp_all)
        | (have hsome := getOpaque_some st index .DECFLOAT34 "OpaqueDecFloat34" d hd hb o ho
           cases o <;> simp_all)
        | (have hsome := getOpaque_some st index .DATE "OpaqueDate" d hd hb o ho
           cases o <;> simp_all)
        | (have hsome := getOpaque_some st index .TIME "OpaqueTime" d hd hb o ho
           cases o <;> simp_all)
        | (have hsome := getOpaque_some st index .TIMESTAMP "OpaqueTimestamp" d hd hb o ho
           cases o <;> simp_all)
        | (have hsome := getOpaque_some st index .TIME_TZ "OpaqueTimeTz" d hd hb o ho
           cases o <;> simp_all)
        | (have hsome := getOpaque_some st index .TIMESTAMP_TZ "OpaqueTimestampTz" d hd hb o ho
           cases o <;> simp_all)
        | (have hsome := getOpaque_some st index .BLOB "BlobId" d hd hb o ho
           cases o <;> simp_all)
        | (have hsome := getString_some env st index d hd hb o ho
           cases o <;> simp_all)
  · intro d2 st2 hd2 hset hbound
    rw [Stmt.setNull, hd2, bind_ok_reduce] at hset
    cases hset
    exact Buffer.read16_write16_self st.inMessage d2.nullOffset FB_TRUE hbound
      (by norm_num [FB_TRUE])

/-- Witness for getters_null_contract at the concrete example statement. -/
theorem getters_null_contract_witness :
    exampleStmt.getOutDescriptor 0 = .ok exampleDescriptor ∧
    exampleStmt.isNull 0 =
      .ok (exampleStmt.outMessage.read16 exampleDescriptor.nullOffset != FB_FALSE) :=
  ⟨rfl, (getters_null_contract trivialEnv exampleStmt 0 exampleDescriptor rfl).1⟩

theorem Buffer.byte_write16_outside (buf : Buffer) (off v j : Nat)
    (h1 : j ≠ off) (h2 : j ≠ off + 1) :
    (buf.write16 off v).byte j = buf.byte j := by
  rw [Buffer.write16, Buffer.byte_setByte_other _ _ _ _ (Ne.symm h2),
    Buffer.byte_setByte_other _ _ _ _ (Ne.symm h1)]

theorem Buffer.byte_writeBytes_outside (bs : List Nat) (buf : Buffer)
    (off j : Nat) (h : ∀ k, k < bs.length → j ≠ off + k) :
    (buf.writeBytes off bs).byte j = buf.byte j := by
  induction bs generalizing buf off with
  | nil => rfl
  | cons b rest ih =>
    show ((buf.setByte off b).writeBytes (off + 1) rest).byte j = buf.byte j
    rw [ih _ _ (fun k hk => by
      have := h (k + 1) (by simpa using Nat.succ_lt_succ hk)
      omega)]
    exact Buffer.byte_setByte_other _ _ _ _
      (Ne.symm (by have := h 0 (by simp); omega))

theorem encodeIntLE_length (v : Int) (n : Nat) : (encodeIntLE v n).length = n := by
  simp [encodeIntLE]

theorem footprint_core (buf : Buffer) (d : Descriptor) (bs : List Nat)
    (v j : Nat) (hlen : bs.length ≤ fieldSpan d) (hout : outsideField d j) :
    ((buf.writeBytes d.offset bs).write16 d.nullOffset v).byte j = buf.byte j := by
  obtain ⟨h1, h2⟩ := hout
  rw [Buffer.byte_write16_outside _ _ _ _ (by omega) (by omega)]
  exact Buffer.byte_writeBytes_outside bs buf d.offset j (fun k hk => by omega)

theorem footprint_string (buf : Buffer) (d : Descriptor) (value : List Nat)
    (v j : Nat) (hval : value.length ≤ d.length) (hstr : d.adjustedType = .STRING)
    (hout : outsideField d j) :
    ((((buf.write16 d.offset value.length).writeBytes (d.offset + 2)
        value).write16 d.nullOffset v)).byte j = buf.byte j := by
  obtain ⟨h1, h2⟩ := hout
  have hspan : fieldSpan d = 2 + d.length := by
    rw [fieldSpan, hstr]
  rw [hspan] at h1
  rw [Buffer.byte_write16_outside _ _ _ _ (by omega) (by omega)]
  rw [Buffer.byte_writeBytes_outside value _ _ _ (fun k hk => by omega)]
  rw [Buffer.byte_write16_outside _ _ _ _ (by omega) (by omega)]

theorem setNull_footprint (st : Stmt) (index : Nat) (d : Descriptor)
    (st2 : Stmt) (hd : st.getInDescriptor index = .ok d)
    (hrun : st.setNull index = .ok st2) : setterFootprint st st2 d := by
  rw [Stmt.setNull, hd, bind_ok_reduce] at hrun
  cases hrun
  refine ⟨rfl, rfl, rfl, ?_⟩
  intro j hout
  obtain ⟨h1, h2⟩ := hout
  exact Buffer.byte_write16_outside _ _ _ _ (by omega) (by omega)

set_option maxHeartbeats 2000000 in
theorem setNumber_footprint (env : ConvEnv) (st : Stmt) (index : Nat)
    (val : NumData) (typeName : String) (d : Descriptor) (st2 : Stmt)
    (henv : envSpanBounded env) (hd : st.getInDescriptor index = .ok d)
    (hrun : setNumber env st index val typeName = .ok st2) :
    setterFootprint st st2 d := by
  rw [setNumber, hd, bind_ok_reduce] at hrun
  rcases hty : d.adjustedType with _ | _ | _ | _ | _ | _ | _ | _ | _ | _ | _
    | _ | _ | _ | _ | _ | _ | _ | _ <;> rw [hty] at hrun
  case BOOLEAN => exact Except.noConfusion hrun
  case TEXT => exact Except.noConfusion hrun
  case STRING => exact Except.noConfusion hrun
  case TIME_TZ_EX => exact Except.noConfusion hrun
  case TIMESTAMP_TZ_EX => exact Except.noConfusion hrun
  case DATE => exact Except.noConfusion hrun
  case TIME => exact Except.noConfusion hrun
  case TIMESTAMP => exact Except.noConfusion hrun
  case TIME_TZ => exact Except.noConfusion hrun
  case TIMESTAMP_TZ => exact Except.noConfusion hrun
  case BLOB => exact Except.noConfusion hrun
  case INT16 =>
    revert hrun
    cases hv : numberToNumberInt env val d.scale 16 with
    | error e => intro hrun; exact Except.noConfusion hrun
    | ok v =>
      intro hrun
      replace hrun : Except.ok (st.setIn
          ((st.inMessage.writeBytes d.offset (encodeIntLE v 2)).write16
            d.nullOffset FB_FALSE)) = Except.ok st2 := hrun
      cases hrun
      refine ⟨rfl, rfl, rfl, fun j hout => footprint_core _ _ _ _ _ ?_ hout⟩
      rw [encodeIntLE_length, fieldSpan, hty]
  case INT32 =>
    revert hrun
    cases hv : numberToNumberInt env val d.scale 32 with
    | error e => intro hrun; exact Except.noConfusion hrun
    | ok v =>
      intro hrun
      replace hrun : Except.ok (st.setIn
          ((st.inMessage.writeBytes d.offset (encodeIntLE v 4)).write16
            d.nullOffset FB_FALSE)) = Except.ok st2 := hrun
      cases hrun
      refine ⟨rfl, rfl, rfl, fun j hout => footprint_core _ _ _ _ _ ?_ hout⟩
      rw [encodeIntLE_length, fieldSpan, hty]
  case INT64 =>
    revert hrun
    cases hv : numberToNumberInt env val d.scale 64 with
    | error e => intro hrun; exact Except.noConfusion hrun
    | ok v =>
      intro hrun
      replace hrun : Except.ok (st.setIn
          ((st.inMessage.writeBytes d.offset (encodeIntLE v 8)).write16
            d.nullOffset FB_FALSE)) = Except.ok st2 := hrun
      cases hrun
      refine ⟨rfl, rfl, rfl, fun j hout => footprint_core _ _ _ _ _ ?_ hout⟩
      rw [encodeIntLE_length, fieldSpan, hty]
  case INT128 =>
    revert hrun
    cases hv : numberToNumberInt env val d.scale 128 with
    | error e => intro hrun; exact Except.noConfusion hrun
    | ok v =>
      intro hrun
      replace hrun : Except.ok (st.setIn
          ((st.inMessage.writeBytes d.offset (encodeIntLE v 16)).write16
            d.nullOffset FB_FALSE)) = Except.ok st2 := hrun
      cases hrun
      refine ⟨rfl, rfl, rfl, fun j hout => footprint_core _ _ _ _ _ ?_ hout⟩
      rw [encodeIntLE_length, fieldSpan, hty]
  case FLOAT =>
    revert hrun
    cases hv : env.toF32 val d.scale with
    | error e => intro hrun; exact Except.noConfusion hrun
    | ok bits =>
      intro hrun
      replace hrun : Except.ok (st.setIn
          ((st.inMessage.writeBytes d.offset (encodeIntLE bits 4)).write16
            d.nullOffset FB_FALSE)) = Except.ok st2 := hrun
      cases hrun
      refine ⟨rfl, rfl, rfl, fun j hout => footprint_core _ _ _ _ _ ?_ hout⟩
      rw [encodeIntLE_length, fieldSpan, hty]
  case DOUBLE =>
    revert hrun
    cases hv : env.toF64 val d.scale with
    | error e => intro hrun; exact Except.noConfusion hrun
    | ok bits =>
      intro hrun
      replace hrun : Except.ok (st.setIn
          ((st.inMessage.writeBytes d.offset (encodeIntLE bits 8)).write16
            d.nullOffset FB_FALSE)) = Except.ok st2 := hrun
      cases hrun
      refine ⟨rfl, rfl, rfl, fun j hout => footprint_core _ _ _ _ _ ?_ hout⟩
      rw [encodeIntLE_length, fieldSpan, hty]
  case DECFLOAT16 =>
    revert hrun
    cases hv : env.toDF16 val d.scale with
    | error e => intro hrun; exact Except.noConfusion hrun
    | ok bytes =>
      intro hrun
      replace hrun : Except.ok (st.setIn
          ((st.inMessage.writeBytes d.offset bytes).write16
            d.nullOffset FB_FALSE)) = Except.ok st2 := hrun
      cases hrun
      refine ⟨rfl, rfl, rfl, fun j hout => footprint_core _ _ _ _ _ ?_ hout⟩
      rw [henv.1 val d.scale bytes hv, fieldSpan, hty]
  case DECFLOAT34 =>
    revert hrun
    cases hv : env.toDF34 val d.scale with
    | error e => intro hrun; exact Except.noConfusion hrun
    | ok bytes =>
      intro hrun
      replace hrun : Except.ok (st.setIn
          ((st.inMessage.writeBytes d.offset bytes).write16
            d.nullOffset FB_FALSE)) = Except.ok st2 := hrun
      cases hrun
      refine ⟨rfl, rfl, rfl, fun j hout => footprint_core _ _ _ _ _ ?_ hout⟩
      rw [henv.2.1 val d.scale bytes hv, fieldSpan, hty]

theorem Stmt.setIn_inMessage (st : Stmt) (buf : Buffer) :
    (st.setIn buf).inMessage = buf := rfl

theorem setBool_footprint (st : Stmt) (index : Nat) (optValue : Option Bool)
    (d : Descriptor) (st2 : Stmt) (hd : st.getInDescriptor index = .ok d)
    (hrun : st.setBool index optValue = .ok st2) : setterFootprint st st2 d := by
  cases optValue with
  | none => exact setNull_footprint st index d st2 hd hrun
  | some value =>
    rw [Stmt.setBool, hd, bind_ok_reduce] at hrun
    rcases hty : d.adjustedType with _ | _ | _ | _ | _ | _ | _ | _ | _ | _ | _
      | _ | _ | _ | _ | _ | _ | _ | _ <;> rw [hty] at hrun <;>
      try exact Except.noConfusion hrun
    replace hrun : Except.ok (st.setIn
        ((st.inMessage.setByte d.offset (if value then 1 else 0)).write16
          d.nullOffset FB_FALSE)) = Except.ok st2 := hrun
    cases hrun
    refine ⟨rfl, rfl, rfl, ?_⟩
    intro j hout
    obtain ⟨h1, h2⟩ := hout
    simp only [fieldSpan, hty] at h1
    rw [Stmt.setIn_inMessage]
    rw [Buffer.byte_write16_outside _ _ _ _ (by omega) (by omega)]
    exact Buffer.byte_setByte_other _ _ _ _ (by omega)

theorem setOpaque_footprint (st : Stmt) (index : Nat) (t : SqlType)
    (bytes : List Nat) (typeName : String) (d : Descriptor) (st2 : Stmt)
    (hd : st.getInDescriptor index = .ok d)
    (hlen : d.adjustedType = t → bytes.length ≤ fieldSpan d)
    (hrun : setOpaque st index t bytes typeName = .ok st2) :
    setterFootprint st st2 d := by
  rw [setOpaque, hd, bind_ok_reduce] at hrun
  by_cases ht : d.adjustedType = t
  · rw [if_pos ht] at hrun
    cases hrun
    exact ⟨rfl, rfl, rfl, fun j hout =>
      footprint_core _ _ _ _ _ (hlen ht) hout⟩
  · rw [if_neg ht] at hrun
    exact Except.noConfusion hrun

set_option maxHeartbeats 2000000 in
theorem setString_footprint (env : ConvEnv) (st : Stmt) (index : Nat)
    (optValue : Option (List Nat)) (d : Descriptor) (st2 : Stmt)
    (henv : envSpanBounded env) (hd : st.getInDescriptor index = .ok d)
    (hrun : setString env st index optValue = .ok st2) :
    setterFootprint st st2 d := by
  cases optValue with
  | none => exact setNull_footprint st index d st2 hd hrun
  | some value =>
    rw [setString, hd, bind_ok_reduce] at hrun
    rcases hty : d.adjustedType with _ | _ | _ | _ | _ | _ | _ | _ | _ | _ | _
      | _ | _ | _ | _ | _ | _ | _ | _ <;> rw [hty] at hrun
    case TEXT => exact Except.noConfusion hrun
    case BOOLEAN =>
      revert hrun
      cases hb : stringToBoolean value with
      | error e => intro hrun; exact Except.noConfusion hrun
      | ok b =>
        intro hrun
        replace hrun : Except.ok (st.setIn
            ((st.inMessage.setByte d.offset b).write16 d.nullOffset FB_FALSE)) =
              Except.ok st2 := hrun
        cases hrun
        refine ⟨rfl, rfl, rfl, ?_⟩
        intro j hout
        obtain ⟨h1, h2⟩ := hout
        simp only [fieldSpan, hty] at h1
        rw [Stmt.setIn_inMessage]
        rw [Buffer.byte_write16_outside _ _ _ _ (by omega) (by omega)]
        exact Buffer.byte_setByte_other _ _ _ _ (by omega)
    case INT16 =>
      revert hrun
      cases hp : parseIntegerText value with
      | error e => intro hrun; exact Except.noConfusion hrun
      | ok p =>
        intro hrun
        replace hrun : bindParsedInteger env st index d p.1 p.2 =
            Except.ok st2 := hrun
        rw [bindParsedInteger] at hrun
        revert hrun
        by_cases hsc : p.2 ≠ d.scale
        · rw [if_pos hsc]
          cases hw : numberToNumberInt env (.sInt p.1 p.2) d.scale 64 with
          | error e => intro hrun; exact Except.noConfusion hrun
          | ok w =>
            intro hrun
            rw [bind_ok_reduce] at hrun
            exact setNumber_footprint env st index (.sInt w d.scale)
              "ScaledInt64" d st2 henv hd hrun
        · rw [if_neg hsc, pure_eq_ok, bind_ok_reduce]
          intro hrun
          exact setNumber_footprint env st index (.sInt p.1 d.scale)
            "ScaledInt64" d st2 henv hd hrun
    case INT32 =>
      revert hrun
      cases hp : parseIntegerText value with
      | error e => intro hrun; exact Except.noConfusion hrun
      | ok p =>
        intro hrun
        replace hrun : bindParsedInteger env st index d p.1 p.2 =
            Except.ok st2 := hrun
        rw [bindParsedInteger] at hrun
        revert hrun
        by_cases hsc : p.2 ≠ d.scale
        · rw [if_pos hsc]
          cases hw : numberToNumberInt env (.sInt p.1 p.2) d.scale 64 with
          | error e => intro hrun; exact Except.noConfusion hrun
          | ok w =>
            intro hrun
            rw [bind_ok_reduce] at hrun
            exact setNumber_footprint env st index (.sInt w d.scale)
              "ScaledInt64" d st2 henv hd hrun
        · rw [if_neg hsc, pure_eq_ok, bind_ok_reduce]
          intro hrun
          exact setNumber_footprint env st index (.sInt p.1 d.scale)
            "ScaledInt64" d st2 henv hd hrun
    case INT64 =>
      revert hrun
      cases hp : parseIntegerText value with
      | error e => intro hrun; exact Except.noConfusion hrun
      | ok p =>
        intro hrun
        replace hrun : bindParsedInteger env st index d p.1 p.2 =
            Except.ok st2 := hrun
        rw [bindParsedInteger] at hrun
        revert hrun
        by_cases hsc : p.2 ≠ d.scale
        · rw [if_pos hsc]
          cases hw : numberToNumberInt env (.sInt p.1 p.2) d.scale 64 with
          | error e => intro hrun; exact Except.noConfusion hrun
          | ok w =>
            intro hrun
            rw [bind_ok_reduce] at hrun
            exact setNumber_footprint env st index (.sInt w d.scale)
              "ScaledInt64" d st2 henv hd hrun
        · rw [if_neg hsc, pure_eq_ok, bind_ok_reduce]
          intro hrun
          exact setNumber_footprint env st index (.sInt p.1 d.scale)
            "ScaledInt64" d st2 henv hd hrun
    case INT128 =>
      revert hrun
      cases hb : env.int128FromStr d.scale value with
      | error e => intro hrun; exact Except.noConfusion hrun
      | ok bytes =>
        intro hrun
        replace hrun : Except.ok (st.setIn
            ((st.inMessage.writeBytes d.offset bytes).write16 d.nullOffset
              FB_FALSE)) = Except.ok st2 := hrun
        cases hrun
        refine ⟨rfl, rfl, rfl, fun j hout =>
          footprint_core _ _ _ _ _ ?_ hout⟩
        rw [henv.2.2.1 d.scale value bytes hb, fieldSpan, hty]
    case FLOAT =>
      revert hrun
      cases hb : env.parseF64 value with
      | error e => intro hrun; exact Except.noConfusion hrun
      | ok bits =>
        intro hrun
        rw [bind_ok_reduce] at hrun
        exact setNumber_footprint env st index (.sF64 bits) "double" d st2
          henv hd hrun
    case DOUBLE =>
      revert hrun
      cases hb : env.parseF64 value with
      | error e => intro hrun; exact Except.noConfusion hrun
      | ok bits =>
        intro hrun
        rw [bind_ok_reduce] at hrun
        exact setNumber_footprint env st index (.sF64 bits) "double" d st2
          henv hd hrun
    case DATE =>
      revert hrun
      cases hb : env.strToDate value with
      | error e => intro hrun; exact Except.noConfusion hrun
      | ok bytes =>
        intro hrun
        replace hrun : Except.ok (st.setIn
            ((st.inMessage.writeBytes d.offset bytes).write16 d.nullOffset
              FB_FALSE)) = Except.ok st2 := hrun
        cases hrun
        refine ⟨rfl, rfl, rfl, fun j hout =>
          footprint_core _ _ _ _ _ ?_ hout⟩
        rw [henv.2.2.2.1 value bytes hb, fieldSpan, hty]
    case TIME =>
      revert hrun
      cases hb : env.strToTime value with
      | error e => intro hrun; exact Except.noConfusion hrun
      | ok bytes =>
        intro hrun
        replace hrun : Except.ok (st.setIn
            ((st.inMessage.writeBytes d.offset bytes).write16 d.nullOffset
              FB_FALSE)) = Except.ok st2 := hrun
        cases hrun
        refine ⟨rfl, rfl, rfl, fun j hout =>
          footprint_core _ _ _ _ _ ?_ hout⟩
        rw [henv.2.2.2.2.1 value bytes hb, fieldSpan, hty]
    case TIMESTAMP =>
      revert hrun
      cases hb : env.strToTimestamp value with
      | error e => intro hrun; exact Except.noConfusion hrun
      | ok bytes =>
        intro hrun
        replace hrun : Except.ok (st.setIn
            ((st.inMessage.writeBytes d.offset bytes).write16 d.nullOffset
              FB_FALSE)) = Except.ok st2 := hrun
        cases hrun
        refine ⟨rfl, rfl, rfl, fun j hout =>
          footprint_core _ _ _ _ _ ?_ hout⟩
        rw [henv.2.2.2.2.2.1 value bytes hb, fieldSpan, hty]
    case TIME_TZ =>
      revert hrun
      cases hb : env.strToTimeTz value with
      | error e => intro hrun; exact Except.noConfusion hrun
      | ok bytes =>
        intro hrun
        replace hrun : Except.ok (st.setIn
            ((st.inMessage.writeBytes d.offset bytes).write16 d.nullOffset
              FB_FALSE)) = Except.ok st2 := hrun
        cases hrun
        refine ⟨rfl, rfl, rfl, fun j hout =>
          footprint_core _ _ _ _ _ ?_ hout⟩
        rw [henv.2.2.2.2.2.2.1 value bytes hb, fieldSpan, hty]
    case TIMESTAMP_TZ =>
      revert hrun
      cases hb : env.strToTimestampTz value with
      | error e => intro hrun; exact Except.noConfusion hrun
      | ok bytes =>
        intro hrun
        replace hrun : Except.ok (st.setIn
            ((st.inMessage.writeBytes d.offset bytes).write16 d.nullOffset
              FB_FALSE)) = Except.ok st2 := hrun
        cases hrun
        refine ⟨rfl, rfl, rfl, fun j hout =>
          footprint_core _ _ _ _ _ ?_ hout⟩
        rw [henv.2.2.2.2.2.2.2.1 value bytes hb, fieldSpan, hty]
    case TIMESTAMP_TZ_EX => exact Except.noConfusion hrun
    case TIME_TZ_EX => exact Except.noConfusion hrun
    case DECFLOAT16 =>
      revert hrun
      cases hb : env.df16FromStr value with
      | error e => intro hrun; exact Except.noConfusion hrun
      | ok bytes =>
        intro hrun
        replace hrun : Except.ok (st.setIn
            ((st.inMessage.writeBytes d.offset bytes).write16 d.nullOffset
              FB_FALSE)) = Except.ok st2 := hrun
        cases hrun
        refine ⟨rfl, rfl, rfl, fun j hout =>
          footprint_core _ _ _ _ _ ?_ hout⟩
        rw [henv.2.2.2.2.2.2.2.2.1 value bytes hb, fieldSpan, hty]
    case DECFLOAT34 =>
      revert hrun
      cases hb : env.df34FromStr value with
      | error e => intro hrun; exact Except.noConfusion hrun
      | ok bytes =>
        intro hrun
        replace hrun : Except.ok (st.setIn
            ((st.inMessage.writeBytes d.offset bytes).write16 d.nullOffset
              FB_FALSE)) = Except.ok st2 := hrun
        cases hrun
        refine ⟨rfl, rfl, rfl, fun j hout =>
          footprint_core _ _ _ _ _ ?_ hout⟩
        rw [henv.2.2.2.2.2.2.2.2.2 value bytes hb, fieldSpan, hty]
    case STRING =>
      replace hrun : (if value.length > d.length then
          (Except.error (FbError.database STATUS_STRING_TRUNCATION) :
            Except FbError Stmt)
        else Except.ok (st.setIn
          ((((st.inMessage.write16 d.offset value.length).writeBytes
            (d.offset + 2) value)).write16 d.nullOffset FB_FALSE))) =
          Except.ok st2 := hrun
      by_cases hv : value.length > d.length
      · rw [if_pos hv] at hrun
        exact Except.noConfusion hrun
      · rw [if_neg hv] at hrun
        cases hrun
        refine ⟨rfl, rfl, rfl, ?_⟩
        intro j hout
        rw [Stmt.setIn_inMessage]
        exact footprint_string _ _ _ _ _ (by omega) hty hout
    case BLOB => exact Except.noConfusion hrun

theorem map_error_reduce {α β : Type} (e : FbError) (g : α → β) :
    (Except.error e : Except FbError α).map g = .error e := rfl

/-- C9: every typed accessor called with an index at or beyond the
descriptor-list size raises the out-of-range error before touching either
row buffer, and in range a setter writes only inside its field's value span
and null slot, leaving the rest of the input buffer, the whole output
buffer and both descriptor lists unchanged. -/
theorem accessor_bounds (env : ConvEnv) (st : Stmt) (index : Nat) :
    (st.outDescriptors.length ≤ index →
      st.isNull index = .error .outOfRange ∧
      ∀ k, runGetter env k st index = .error .outOfRange) ∧
    (st.inDescriptors.length ≤ index →
      ∀ op, runSetter env st op index = .error .outOfRange) ∧
    (∀ op d st2, envSpanBounded env → opSized op →
      st.getInDescriptor index = .ok d →
      runSetter env st op index = .ok st2 → setterFootprint st st2 d) := by
  refine ⟨?_, ?_, ?_⟩
  · intro hi
    have hout : st.getOutDescriptor index = .error .outOfRange := by
      rw [Stmt.getOutDescriptor, dif_neg (by omega)]
    constructor
    · rw [Stmt.isNull, hout, bind_error_reduce]
    · intro k
      cases k <;>
        simp only [runGetter, getInt16, getInt32, getInt64, getScaledInt16,
          getScaledInt32, getScaledInt64, getScaledOpaqueInt128, getIntColumn,
          getOpaque, getString, Stmt.getBool, hout, bind_error_reduce,
          map_error_reduce]
  · intro hi op
    have hin : st.getInDescriptor index = .error .outOfRange := by
      rw [Stmt.getInDescriptor, dif_neg (by omega)]
    rcases op with _ | v | v | v | v | v | v | v <;>
      first
        | (rcases v with _ | v <;>
            simp only [runSetter, Stmt.setNull, Stmt.setBool, setInt16,
              setInt64, setScaledInt64, setString, setNumber, setOpaque, hin,
              bind_error_reduce])
        | simp only [runSetter, Stmt.setNull, Stmt.setBool, setInt16, setInt64,
            setScaledInt64, setString, setNumber, setOpaque, hin,
            bind_error_reduce]
  · intro op d st2 henv hop hd hrun
    rcases op with _ | v | v | v | v | v | v | v
    · exact setNull_footprint st index d st2 hd hrun
    · exact setBool_footprint st index v d st2 hd hrun
    · rcases v with _ | v
      · exact setNull_footprint st index d st2 hd hrun
      · exact setNumber_footprint env st index (.sInt v 0) "std::int16_t" d
          st2 henv hd hrun
    · rcases v with _ | v
      · exact setNull_footprint st index d st2 hd hrun
      · exact setNumber_footprint env st index (.sInt v 0) "std::int64_t" d
          st2 henv hd hrun
    · rcases v with _ | v
      · exact setNull_footprint st index d st2 hd hrun
      · exact setNumber_footprint env st index (.sInt v.1 v.2) "ScaledInt64" d
          st2 henv hd hrun
    · exact setString_footprint env st index v d st2 henv hd hrun
    · refine setOpaque_footprint st index .DATE v "OpaqueDate" d st2 hd ?_ hrun
      intro ht
      have hvl : v.length = 4 := hop
      simp [fieldSpan, ht, hvl]
    · refine setOpaque_footprint st index .BLOB v "BlobId" d st2 hd ?_ hrun
      intro ht
      have hvl : v.length = 8 := hop
      simp [fieldSpan, ht, hvl]

/-- Witness for accessor_bounds at the concrete example statement and the
out-of-range index 5. -/
theorem accessor_bounds_witness :
    exampleStmt.outDescriptors.length ≤ 5 ∧
    exampleStmt.isNull 5 = .error .outOfRange :=
  ⟨by decide, ((accessor_bounds trivialEnv exampleStmt 5).1 (by decide)).1⟩

theorem Buffer.readBytes_succ (buf : Buffer) (off n : Nat) :
    buf.readBytes off (n + 1) = buf.byte off :: buf.readBytes (off + 1) n := by
  rw [Buffer.readBytes, List.range_succ_eq_map]
  simp only [List.map_cons, List.map_map, Nat.add_zero]
  rw [Buffer.readBytes]
  congr 1
  apply List.map_congr_left
  intro i _
  simp [Function.comp]
  congr 1
  omega

theorem Buffer.size_writeBytes (bs : List Nat) (buf : Buffer) (off : Nat) :
    (buf.writeBytes off bs).size = buf.size := by
  induction bs generalizing buf off with
  | nil => rfl
  | cons b rest ih =>
    show ((buf.setByte off b).writeBytes (off + 1) rest).size = buf.size
    rw [ih, Buffer.size_setByte]

theorem Buffer.readBytes_writeBytes (bs : List Nat) (buf : Buffer) (off : Nat)
    (hb : off + bs.length ≤ buf.size) (hlt : ∀ b ∈ bs, b < 256) :
    (buf.writeBytes off bs).readBytes off bs.length = bs := by
  induction bs generalizing buf off with
  | nil => rfl
  | cons b rest ih =>
    show ((buf.setByte off b).writeBytes (off + 1) rest).readBytes off
      (rest.length + 1) = b :: rest
    rw [Buffer.readBytes_succ]
    have hhead : ((buf.setByte off b).writeBytes (off + 1) rest).byte off = b := by
      rw [Buffer.byte_writeBytes_outside _ _ _ _ (fun k _ => by omega),
        Buffer.byte_setByte_self _ _ _ (by simp at hb; omega)]
      exact Nat.mod_eq_of_lt (hlt b (List.mem_cons_self _ _))
    have htail : ((buf.setByte off b).writeBytes (off + 1) rest).readBytes
        (off + 1) rest.length = rest := by
      refine ih _ _ ?_ (fun x hx => hlt x (List.mem_cons_of_mem _ hx))
      rw [Buffer.size_setByte]
      simp at hb
      omega
    rw [hhead, htail]

theorem Buffer.read16_writeBytes_outside (bs : List Nat) (buf : Buffer)
    (o2 t : Nat) (h : ∀ k, k < bs.length → t ≠ o2 + k ∧ t + 1 ≠ o2 + k) :
    (buf.writeBytes o2 bs).read16 t = buf.read16 t := by
  rw [Buffer.read16, Buffer.read16,
    Buffer.byte_writeBytes_outside _ _ _ _ (fun k hk => (h k hk).1),
    Buffer.byte_writeBytes_outside _ _ _ _ (fun k hk => (h k hk).2)]

theorem Buffer.readBytes_congr (buf1 buf2 : Buffer) (off n : Nat)
    (h : ∀ i, i < n → buf1.byte (off + i) = buf2.byte (off + i)) :
    buf1.readBytes off n = buf2.readBytes off n := by
  rw [Buffer.readBytes, Buffer.readBytes]
  apply List.map_congr_left
  intro i hi
  exact h i (List.mem_range.mp hi)

/-- C10: binding a string longer than the declared byte length of a STRING
parameter raises the string-truncation database exception with no post
state, so the row buffer keeps its previous contents (the length check is
the first statement of the branch, before any write); a fitting value is
stored as a 2-byte length prefix followed by the bytes, and the null flag is
cleared. -/
theorem setString_truncation (env : ConvEnv) (st : Stmt) (index : Nat)
    (d : Descriptor) (value : List Nat)
    (hd : st.getInDescriptor index = .ok d)
    (hstr : d.adjustedType = .STRING) :
    (value.length > d.length →
      setString env st index (some value) =
        .error (.database STATUS_STRING_TRUNCATION)) ∧
    (value.length ≤ d.length →
      d.length < 65536 →
      d.offset + 2 + d.length ≤ st.inMessage.size →
      d.nullOffset + 2 ≤ st.inMessage.size →
      (d.offset + 2 + d.length ≤ d.nullOffset ∨ d.nullOffset + 2 ≤ d.offset) →
      (∀ b ∈ value, b < 256) →
      ∃ st2, setString env st index (some value) = .ok st2 ∧
        st2.inMessage.read16 d.offset = value.length ∧
        st2.inMessage.readBytes (d.offset + 2) value.length = value ∧
        st2.inMessage.read16 d.nullOffset = FB_FALSE ∧
        st2.inMessage.size = st.inMessage.size ∧
        setterFootprint st st2 d) := by
  have hred : setString env st index (some value) =
      (if value.length > d.length then
        (Except.error (FbError.database STATUS_STRING_TRUNCATION) :
          Except FbError Stmt)
      else Except.ok (st.setIn
        ((((st.inMessage.write16 d.offset value.length).writeBytes
          (d.offset + 2) value)).write16 d.nullOffset FB_FALSE))) := by
    rw [setString, hd, bind_ok_reduce]
    rw [show d.adjustedType = SqlType.STRING from hstr]
    rfl
  constructor
  · intro hv
    rw [hred, if_pos hv]
  · intro hv hlen hoff hnull hdisj hbytes
    rw [hred, if_neg (by omega)]
    refine ⟨_, rfl, ?_, ?_, ?_, ?_, ?_⟩
    · rw [Stmt.setIn_inMessage]
      rw [Buffer.read16_write16_other _ _ _ _ (by omega)]
      rw [Buffer.read16_writeBytes_outside _ _ _ _ (fun k hk => by omega)]
      exact Buffer.read16_write16_self _ _ _ (by omega) (by omega)
    · rw [Stmt.setIn_inMessage]
      have hsz1 : (st.inMessage.write16 d.offset value.length).size =
          st.inMessage.size := Buffer.size_write16 _ _ _
      rw [Buffer.readBytes_congr _
          ((st.inMessage.write16 d.offset value.length).writeBytes
            (d.offset + 2) value) (d.offset + 2) value.length
          (fun i hi => Buffer.byte_write16_outside _ _ _ _ (by omega) (by omega))]
      exact Buffer.readBytes_writeBytes value _ _ (by omega) hbytes
    · rw [Stmt.setIn_inMessage]
      exact Buffer.read16_write16_self _ _ _
        (by rw [Buffer.size_writeBytes, Buffer.size_write16]; omega)
        (by norm_num [FB_FALSE])
    · rw [Stmt.setIn_inMessage, Buffer.size_write16, Buffer.size_writeBytes,
        Buffer.size_write16]
    · refine ⟨rfl, rfl, rfl, ?_⟩
      intro j hout
      rw [Stmt.setIn_inMessage]
      exact footprint_string _ _ _ _ _ (by omega) hstr hout

/-- Witness for setString_truncation: a 5-byte value against the 4-byte
example STRING parameter raises the truncation status. -/
theorem setString_truncation_witness :
    (5 > exampleStringDescriptor.length) ∧
    setString trivialEnv exampleStringStmt 0 (some [65, 66, 67, 68, 69]) =
      .error (.database STATUS_STRING_TRUNCATION) := by
  refine ⟨by decide, ?_⟩
  exact (setString_truncation trivialEnv exampleStringStmt 0
    exampleStringDescriptor [65, 66, 67, 68, 69] rfl rfl).1 (by decide)

theorem getFields_ok_spec (env : ConvEnv) (st : Stmt) (reqs : List FieldReq)
    (i0 : Nat) (vs : List (Option FbValue))
    (h : getFields env st reqs i0 = .ok vs) :
    vs.length = reqs.length ∧
    ∀ j r, reqs[j]? = some r →
      ∃ v, vs[j]? = some v ∧ getStructField env st r (i0 + j) = .ok v := by
  induction reqs generalizing i0 vs with
  | nil =>
    cases h
    exact ⟨rfl, fun j r hj => by simp at hj⟩
  | cons r rest ih =>
    rw [getFields] at h
    revert h
    cases hf : getStructField env st r i0 with
    | error e => intro h; exact Except.noConfusion h
    | ok v =>
      rw [bind_ok_reduce]
      cases hrest : getFields env st rest (i0 + 1) with
      | error e => intro h; exact Except.noConfusion h
      | ok vs2 =>
        rw [bind_ok_reduce]
        intro h
        cases h
        obtain ⟨hlen, hspec⟩ := ih (i0 + 1) vs2 hrest
        refine ⟨by simp [hlen], ?_⟩
        intro j q hj
        cases j with
        | zero =>
          refine ⟨v, by simp, ?_⟩
          simp at hj
          rw [← hj]
          simpa using hf
        | succ j2 =>
          simp only [List.getElem?_cons_succ] at hj ⊢
          obtain ⟨v2, hv2, hg⟩ := hspec j2 q hj
          refine ⟨v2, hv2, ?_⟩
          have : i0 + 1 + j2 = i0 + (j2 + 1) := by omega
          rw [← this]
          exact hg

theorem getFields_error_of_required_null (env : ConvEnv) (st : Stmt)
    (reqs : List FieldReq) (i0 i : Nat) (k : GetterKind)
    (hj : reqs[i]? = some (.required k))
    (hnull : runGetter env k st (i0 + i) = .ok none) :
    ∃ e, getFields env st reqs i0 = .error e := by
  induction reqs generalizing i0 i with
  | nil => simp at hj
  | cons r rest ih =>
    cases i with
    | zero =>
      simp at hj
      rw [getFields]
      have hf : getStructField env st r i0 =
          .error (.fbCpp "Null value encountered for non-optional field at index") := by
        rw [show i0 + 0 = i0 from rfl] at hnull
        rw [hj]
        simp only [getStructField, hnull, bind_ok_reduce]
      rw [hf, bind_error_reduce]
      exact ⟨_, rfl⟩
    | succ i2 =>
      simp only [List.getElem?_cons_succ] at hj
      rw [getFields]
      cases hf : getStructField env st r i0 with
      | error e => rw [bind_error_reduce]; exact ⟨e, rfl⟩
      | ok v =>
        rw [bind_ok_reduce]
        obtain ⟨e, he⟩ := ih (i0 + 1) i2 hj
          (by rw [show i0 + 1 + i2 = i0 + (i2 + 1) from by omega]; exact hnull)
        rw [he, bind_error_reduce]
        exact ⟨e, rfl⟩

/-- C4: record and tuple binding requires an exact field-count match and
errors otherwise, binds positionally, errors on a null column read into a
non-optional field, and quietly yields absent for an optional field on a
null column. -/
theorem record_binding_contract (env : ConvEnv) (st : Stmt) :
    (∀ reqs : List FieldReq, reqs.length ≠ st.outDescriptors.length →
      getRecord env st reqs =
        .error (.fbCpp "Struct field count does not match output column count")) ∧
    (∀ vals : List SetterOp, vals.length ≠ st.inDescriptors.length →
      setRecord env st vals =
        .error (.fbCpp "Struct field count does not match input parameter count")) ∧
    (∀ reqs vs, getRecord env st reqs = .ok vs →
      reqs.length = st.outDescriptors.length ∧ vs.length = reqs.length ∧
      ∀ j r, reqs[j]? = some r →
        ∃ v, vs[j]? = some v ∧ getStructField env st r j = .ok v) ∧
    (∀ reqs i k, reqs[i]? = some (.required k) →
      runGetter env k st i = .ok none →
      ∃ e, getRecord env st reqs = .error e) ∧
    (∀ reqs vs i k, reqs[i]? = some (.optionalReq k) →
      getRecord env st reqs = .ok vs →
      runGetter env k st i = .ok none → vs[i]? = some none) := by
  refine ⟨?_, ?_, ?_, ?_, ?_⟩
  · intro reqs hne
    rw [getRecord, if_pos hne]
  · intro vals hne
    rw [setRecord, if_pos hne]
  · intro reqs vs h
    rw [getRecord] at h
    by_cases hne : reqs.length ≠ st.outDescriptors.length
    · rw [if_pos hne] at h; exact Except.noConfusion h
    · rw [if_neg hne] at h
      obtain ⟨hlen, hspec⟩ := getFields_ok_spec env st reqs 0 vs h
      refine ⟨by omega, hlen, ?_⟩
      intro j r hj
      obtain ⟨v, hv, hg⟩ := hspec j r hj
      exact ⟨v, hv, by rw [show (0 : Nat) + j = j from by omega] at hg; exact hg⟩
  · intro reqs i k hj hnull
    rw [getRecord]
    by_cases hne : reqs.length ≠ st.outDescriptors.length
    · rw [if_pos hne]; exact ⟨_, rfl⟩
    · rw [if_neg hne]
      exact getFields_error_of_required_null env st reqs 0 i k hj
        (by rw [show (0 : Nat) + i = i from by omega]; exact hnull)
  · intro reqs vs i k hj hok hnull
    rw [getRecord] at hok
    by_cases hne : reqs.length ≠ st.outDescriptors.length
    · rw [if_pos hne] at hok; exact Except.noConfusion hok
    · rw [if_neg hne] at hok
      obtain ⟨_, hspec⟩ := getFields_ok_spec env st reqs 0 vs hok
      obtain ⟨v, hv, hg⟩ := hspec i (.optionalReq k) hj
      rw [getStructField, show (0 : Nat) + i = i from by omega, hnull] at hg
      cases hg
      exact hv

/-- Witness for record_binding_contract: binding a two-field record against
the one-column example statement errors. -/
theorem record_binding_contract_witness :
    ([FieldReq.optionalReq .gInt32, FieldReq.optionalReq .gInt32].length ≠
      exampleStmt.outDescriptors.length) ∧
    getRecord trivialEnv exampleStmt
        [FieldReq.optionalReq .gInt32, FieldReq.optionalReq .gInt32] =
      .error (.fbCpp "Struct field count does not match output column count") :=
  ⟨by decide,
    (record_binding_contract trivialEnv exampleStmt).1
      [FieldReq.optionalReq .gInt32, FieldReq.optionalReq .gInt32] (by decide)⟩

theorem enumFrom_snd_mem {α : Type} {q : Nat × α} {l : List α} {n : Nat}
    (h : q ∈ l.enumFrom n) : q.2 ∈ l := by
  have h2 : q.2 ∈ (l.enumFrom n).map Prod.snd := List.mem_map_of_mem _ h
  rwa [List.enumFrom_map_snd] at h2

theorem findLastDot_of_no_dot {value : List Nat} (h : 46 ∉ value) :
    findLastDot value = none := by
  have hf : (value.enumFrom 0).filter (fun q => q.2 == 46) = [] := by
    rw [List.filter_eq_nil_iff]
    intro q hq hc
    have hq2 : q.2 = 46 := by simpa using hc
    exact h (hq2 ▸ enumFrom_snd_mem hq)
  rw [findLastDot, hf]
  rfl

theorem findLastDot_append_dot {a b : List Nat} (hb : 46 ∉ b) :
    findLastDot (a ++ 46 :: b) = some a.length := by
  have hcons : (46 :: b).enumFrom (0 + a.length) =
      (0 + a.length, 46) :: b.enumFrom (0 + a.length + 1) := rfl
  have hf2 : ((46 :: b).enumFrom (0 + a.length)).filter (fun q => q.2 == 46) =
      [(0 + a.length, 46)] := by
    rw [hcons, List.filter_cons_of_pos (by simp)]
    congr 1
    rw [List.filter_eq_nil_iff]
    intro q hq hc
    have hq2 : q.2 = 46 := by simpa using hc
    exact hb (hq2 ▸ enumFrom_snd_mem hq)
  rw [findLastDot, List.enumFrom_append, List.filter_append, hf2,
    List.getLast?_concat]
  simp

theorem digitRunLength_all_digits {b : List Nat} (h : ∀ c ∈ b, isDigitByte c) :
    digitRunLength b = b.length := by
  induction b with
  | nil => rfl
  | cons c rest ih =>
      have hc : isDigitByte c := h c (by simp)
      have hrest := ih (fun x hx => h x (by simp [hx]))
      simp only [digitRunLength, hc, if_true, List.length_cons]
      omega

theorem take_at_dot (a b : List Nat) : (a ++ 46 :: b).take a.length = a :=
  List.take_left a (46 :: b)

theorem drop_past_dot (a b : List Nat) :
    (a ++ 46 :: b).drop (a.length + 1) = b := by
  have h : a ++ 46 :: b = (a ++ [46]) ++ b := by simp
  have h2 : a.length + 1 = (a ++ [46]).length := by simp
  rw [h, h2, List.drop_left]

theorem parseIntegerText_dot {a b : List Nat} (hb : ∀ c ∈ b, isDigitByte c)
    (hnb : 46 ∉ b) :
    parseIntegerText (a ++ 46 :: b) =
      (fromCharsInt64 (a ++ b)).map (fun v => (v, -(Int.ofNat b.length))) := by
  have h1 : parseIntegerText (a ++ 46 :: b) =
      (fromCharsInt64 ((a ++ 46 :: b).take a.length ++
          (a ++ 46 :: b).drop (a.length + 1))).map
        (fun v => (v, -(Int.ofNat
          (digitRunLength ((a ++ 46 :: b).drop (a.length + 1)))))) := by
    rw [parseIntegerText, findLastDot_append_dot hnb]
  rw [h1, take_at_dot, drop_past_dot, digitRunLength_all_digits hb]

theorem parseIntegerText_no_dot {value : List Nat} (h : 46 ∉ value) :
    parseIntegerText value = (fromCharsInt64 value).map (fun v => (v, 0)) := by
  rw [parseIntegerText, findLastDot_of_no_dot h]

/-- C5: for a string bound to an integer-family column (adjusted type INT16,
INT32 or INT64) via setString, the value is routed through the
decimal-point-aware parse: (1) the whole integer case reduces to
parseIntegerText followed by bindParsedInteger; (2) with a decimal point,
the digit run after the last point becomes the negative inferred scale of
the magnitude parsed from the text with the point erased; (3) without a
point the inferred scale is zero; (4) the parsed magnitude is rescaled from
the inferred scale to the descriptor scale and stored through the scaled
64-bit path; (5) text whose point-erased form does not parse as a number
raises the conversion error. -/
theorem setString_integer_parse (env : ConvEnv) (st : Stmt) (index : Nat)
    (d : Descriptor) (hd : st.getInDescriptor index = .ok d)
    (hty : d.adjustedType = .INT16 ∨ d.adjustedType = .INT32 ∨
      d.adjustedType = .INT64) :
    (∀ value, setString env st index (some value) =
        parseIntegerText value >>=
          fun p => bindParsedInteger env st index d p.1 p.2) ∧
    (∀ a b v, (∀ c ∈ b, isDigitByte c) → 46 ∉ b →
        fromCharsInt64 (a ++ b) = .ok v →
        setString env st index (some (a ++ 46 :: b)) =
          bindParsedInteger env st index d v (-(Int.ofNat b.length))) ∧
    (∀ value v, 46 ∉ value → fromCharsInt64 value = .ok v →
        setString env st index (some value) =
          bindParsedInteger env st index d v 0) ∧
    (∀ v scale, bindParsedInteger env st index d v scale =
        (if scale ≠ d.scale then
          numberToNumberInt env (.sInt v scale) d.scale 64
         else pure v) >>=
          fun w => setScaledInt64 env st index (some (w, d.scale))) ∧
    (∀ value e,
        fromCharsInt64 (match findLastDot value with
          | none => value
          | some p => value.take p ++ value.drop (p + 1)) = .error e →
        setString env st index (some value) = .error e) := by
  have hred : ∀ value, setString env st index (some value) =
      parseIntegerText value >>=
        fun p => bindParsedInteger env st index d p.1 p.2 := by
    intro value
    rcases hty with h | h | h <;> rw [setString, hd, bind_ok_reduce, h]
  have hbind : ∀ (v scale : Int), bindParsedInteger env st index d v scale =
      (if scale ≠ d.scale then
        numberToNumberInt env (.sInt v scale) d.scale 64
       else pure v) >>=
        fun w => setScaledInt64 env st index (some (w, d.scale)) := by
    intro v scale
    rw [bindParsedInteger]
    by_cases hsc : scale ≠ d.scale
    · rw [if_pos hsc, if_pos hsc]
    · rw [if_neg hsc, if_neg hsc]
  refine ⟨hred, ?_, ?_, hbind, ?_⟩
  · intro a b v hdig hnb hv
    rw [hred, parseIntegerText_dot hdig hnb, hv]
    rfl
  · intro value v hnd hv
    rw [hred, parseIntegerText_no_dot hnd, hv]
    rfl
  · intro value e he
    have hpe : parseIntegerText value = .error e := by
      cases hfd : findLastDot value with
      | none =>
          rw [hfd] at he
          simp only [parseIntegerText, hfd, he]
          rfl
      | some p =>
          rw [hfd] at he
          simp only [parseIntegerText, hfd, he]
          rfl
    rw [hred, hpe, bind_error_reduce]

/-- Witness for setString_integer_parse: binding the text 100 (bytes
49, 48, 48) to the scale -2 INT32 example parameter parses magnitude 100 at
inferred scale 0, and the stored little-endian payload is the rescaled
magnitude 10000 with the null flag cleared. -/
theorem setString_integer_parse_witness :
    ((46 : Nat) ∉ [49, 48, 48]) ∧
    fromCharsInt64 [49, 48, 48] = .ok 100 ∧
    setString trivialEnv exampleStmt 0 (some [49, 48, 48]) =
      bindParsedInteger trivialEnv exampleStmt 0 exampleDescriptor 100 0 ∧
    setString trivialEnv exampleStmt 0 (some [49, 48, 48]) =
      .ok (exampleStmt.setIn [16, 39, 0, 0, 0, 0]) := by
  refine ⟨by decide, by rfl, ?_, by rfl⟩
  exact (setString_integer_parse trivialEnv exampleStmt 0 exampleDescriptor rfl
    (Or.inr (Or.inl rfl))).2.2.1 [49, 48, 48] 100 (by decide) (by rfl)

/-- Witness for checkStatementType_spec: the COMMIT kind is rejected with a
usage error, GET_SEGMENT is rejected as an unsupported segment operation,
and SELECT passes the switch. -/
theorem checkStatementType_spec_witness :
    (∃ msg, checkStatementType .COMMIT = .error (.fbCpp msg)) ∧
    checkStatementType .GET_SEGMENT =
      .error (.fbCpp "Unsupported statement type: BLOB segment operations") ∧
    checkStatementType .SELECT = .ok () :=
  ⟨checkStatementType_spec.1 .COMMIT (Or.inr (Or.inl rfl)),
   checkStatementType_spec.2.1 .GET_SEGMENT (Or.inl rfl),
   checkStatementType_spec.2.2 .SELECT (by decide) (by decide) (by decide)
     (by decide) (by decide)⟩

end FbCpp
